import Mathlib

/-!
Verification of the geometric placement and collision kernel of the
FoundationPlanner application (`src/App.jsx`).  JavaScript numbers are
modelled as real numbers; `Math.hypot`, `Math.atan2`, `Math.cos`,
`Math.sin` and `Math.round` are modelled by their exact mathematical
counterparts (`Real.sqrt`, `Complex.arg`, `Real.cos`, `Real.sin`,
`round`).  Boolean-valued JavaScript predicates over numbers become
`Prop`-valued predicates; `if`-statements over them use classical
decidability.
-/

open Real

namespace FP

/-- A 2-D point (the `{x, y}` records of the source). -/
structure Point where
  x : ℝ
  y : ℝ


/-- The shape kinds (`type` field: 'square' | 'triangle' | 'corner' | 'stair'). -/
inductive ShapeType where
  | square
  | triangle
  | corner
  | stair
deriving DecidableEq

/-- Building styles (keys of `BUILDING_TYPES`). -/
inductive Building where
  | atreides
  | harkonnen
  | choamShelter
  | choamFacility
deriving DecidableEq

/-- Corner fillet styles (`cornerStyle` field of `BUILDING_TYPES`). -/
inductive CornerStyle where
  | round
  | stepped
  | diagonal
deriving DecidableEq

/-- `const SHAPE_SIZE = 50;` -/
def SHAPE_SIZE : ℝ := 50

/-- `const TRI_HEIGHT = (SHAPE_SIZE * Math.sqrt(3)) / 2;` -/
noncomputable def TRI_HEIGHT : ℝ := SHAPE_SIZE * Real.sqrt 3 / 2

/-- `const SNAP_THRESHOLD = 100;` -/
def SNAP_THRESHOLD : ℝ := 100

/-- `const EDGE_TOLERANCE = 2;` -/
def EDGE_TOLERANCE : ℝ := 2

/-- `const ARC_SEGMENTS = 12;` -/
def ARC_SEGMENTS : ℕ := 12

/-- `const CORNER_STEPS = 3;` -/
def CORNER_STEPS : ℕ := 3

/-- `const DIAGONAL_FLAT_RATIO = 0.27;` -/
def DIAGONAL_FLAT_RATIO : ℝ := 0.27

/-- `const CELL_SIZE = 50;` -/
def CELL_SIZE : ℝ := 50

/-- `BUILDING_TYPES[b].cornerStyle`. -/
def cornerStyleOf : Building → CornerStyle
  | .atreides => .stepped
  | .harkonnen => .round
  | .choamShelter => .round
  | .choamFacility => .diagonal

/-- A committed shape record (`{ id, type, x, y, rotation, building, _verts }`).
`_verts` is the optional cached vertex list attached by the source
(`shape._verts` may be absent, hence `Option`). -/
structure Shape where
  id : ℕ
  type : ShapeType
  x : ℝ
  y : ℝ
  rotation : ℝ
  building : Building
  _verts : Option (List Point)

/-- `Math.hypot(x, y)`. -/
noncomputable def hypot (x y : ℝ) : ℝ := Real.sqrt (x ^ 2 + y ^ 2)

/-- `Math.atan2(y, x)`, modelled as the argument of the complex number
`x + y i`, which has the same range `(-π, π]` and the same values. -/
noncomputable def atan2 (y x : ℝ) : ℝ := Complex.arg ⟨x, y⟩

/-- `degrees * Math.PI / 180`. -/
noncomputable def toRad (deg : ℝ) : ℝ := deg * π / 180

/-- The local (pre-rotation) vertex template of `getVertices`. -/
noncomputable def localVerts : ShapeType → List Point
  | .square => [⟨-(SHAPE_SIZE / 2), -(SHAPE_SIZE / 2)⟩, ⟨SHAPE_SIZE / 2, -(SHAPE_SIZE / 2)⟩,
      ⟨SHAPE_SIZE / 2, SHAPE_SIZE / 2⟩, ⟨-(SHAPE_SIZE / 2), SHAPE_SIZE / 2⟩]
  | .stair => [⟨-(SHAPE_SIZE / 2), -(SHAPE_SIZE / 2)⟩, ⟨SHAPE_SIZE / 2, -(SHAPE_SIZE / 2)⟩,
      ⟨SHAPE_SIZE / 2, SHAPE_SIZE / 2⟩, ⟨-(SHAPE_SIZE / 2), SHAPE_SIZE / 2⟩]
  | .corner => [⟨-(SHAPE_SIZE / 2), -(SHAPE_SIZE / 2)⟩, ⟨SHAPE_SIZE / 2, -(SHAPE_SIZE / 2)⟩,
      ⟨-(SHAPE_SIZE / 2), SHAPE_SIZE / 2⟩]
  | .triangle => [⟨0, -TRI_HEIGHT * 2 / 3⟩, ⟨SHAPE_SIZE / 2, TRI_HEIGHT / 3⟩,
      ⟨-(SHAPE_SIZE / 2), TRI_HEIGHT / 3⟩]

/-- `getVertices` for a pose given by kind, centroid `(x, y)` and
`rotation` in degrees: rotate the local template about the centroid. -/
noncomputable def getVerticesAt (t : ShapeType) (x y rotation : ℝ) : List Point :=
  let rad := rotation * π / 180
  (localVerts t).map fun v =>
    ⟨x + v.x * Real.cos rad - v.y * Real.sin rad,
     y + v.x * Real.sin rad + v.y * Real.cos rad⟩

/-- `getVertices(shape)`. -/
noncomputable def getVertices (s : Shape) : List Point :=
  getVerticesAt s.type s.x s.y s.rotation

/-- The ubiquitous `shape._verts || getVertices(shape)` idiom. -/
noncomputable def shapeVerts (s : Shape) : List Point :=
  s._verts.getD (getVertices s)

/-- Arithmetic-mean x-coordinate: `verts.reduce((s,v) => s + v.x, 0) / verts.length`. -/
noncomputable def centroidX (verts : List Point) : ℝ :=
  (verts.map Point.x).sum / verts.length

/-- Arithmetic-mean y-coordinate. -/
noncomputable def centroidY (verts : List Point) : ℝ :=
  (verts.map Point.y).sum / verts.length

/-- The per-kind rotation-recovery rule shared verbatim by
`verticesToShape` and the decoder (`expandCompressedShapes`):
Square/Stair = `atan2(v1 - v0) + 180`, Corner = `atan2(v1 - v0)`,
Triangle = `atan2(v0 - centroid) + 90` (degrees).  Lists with fewer
than two vertices keep rotation `0` as in the decoder's
`verts.length >= 2` guard. -/
noncomputable def rotationFromVerts (t : ShapeType) (verts : List Point) (cx cy : ℝ) : ℝ :=
  match verts with
  | v0 :: v1 :: _ =>
    match t with
    | .square => atan2 (v1.y - v0.y) (v1.x - v0.x) * 180 / π + 180
    | .stair => atan2 (v1.y - v0.y) (v1.x - v0.x) * 180 / π + 180
    | .corner => atan2 (v1.y - v0.y) (v1.x - v0.x) * 180 / π
    | .triangle => atan2 (v0.y - cy) (v0.x - cx) * 180 / π + 90
  | _ => 0

/-- `verticesToShape(verts, shapeType, id, building)`. -/
noncomputable def verticesToShape (verts : List Point) (shapeType : ShapeType)
    (id : ℕ) (building : Building) : Shape :=
  let cx := centroidX verts
  let cy := centroidY verts
  { id := id, type := shapeType, x := cx, y := cy,
    rotation := rotationFromVerts shapeType verts cx cy,
    building := building, _verts := some verts }

noncomputable instance (priority := 0) instDecidableProp (p : Prop) : Decidable p :=
  Classical.propDecidable p

/-- Normalisation of the angular difference in the round-corner branch:
`while (angleDiff > Math.PI) angleDiff -= 2π; while (angleDiff < -Math.PI) angleDiff += 2π;`.
Since the inputs are differences of `atan2` values, they lie in
`(-2π, 2π)` and each `while` loop runs at most once, so the loops are a
single conditional adjustment. -/
noncomputable def normAngle (d : ℝ) : ℝ :=
  if d > π then d - 2 * π else if d < -π then d + 2 * π else d

/-- The stepped-corner loop body: starting from the current position,
`CORNER_STEPS` iterations each push a move toward `end2`'s direction and
a move back along `end1`'s direction. -/
noncomputable def steppedPoints (d1x d1y d2x d2y : ℝ) : ℕ → ℝ → ℝ → List Point
  | 0, _, _ => []
  | n + 1, curX, curY =>
    let x1 := curX + d2x / CORNER_STEPS
    let y1 := curY + d2y / CORNER_STEPS
    let x2 := x1 - d1x / CORNER_STEPS
    let y2 := y1 - d1y / CORNER_STEPS
    ⟨x1, y1⟩ :: ⟨x2, y2⟩ :: steppedPoints d1x d1y d2x d2y n x2 y2

/-- `getCornerCollisionVerts(corner, end1, end2, cornerStyle)`. -/
noncomputable def getCornerCollisionVerts (corner end1 end2 : Point)
    (cornerStyle : CornerStyle) : List Point :=
  match cornerStyle with
  | .diagonal =>
    let d1x := end1.x - corner.x
    let d1y := end1.y - corner.y
    let d2x := end2.x - corner.x
    let d2y := end2.y - corner.y
    let flat1End : Point := ⟨end1.x + d2x * DIAGONAL_FLAT_RATIO, end1.y + d2y * DIAGONAL_FLAT_RATIO⟩
    let flat2Start : Point := ⟨end2.x + d1x * DIAGONAL_FLAT_RATIO, end2.y + d1y * DIAGONAL_FLAT_RATIO⟩
    [corner, end1, flat1End, flat2Start, end2]
  | .stepped =>
    let d1x := end1.x - corner.x
    let d1y := end1.y - corner.y
    let d2x := end2.x - corner.x
    let d2y := end2.y - corner.y
    corner :: end1 :: steppedPoints d1x d1y d2x d2y CORNER_STEPS end1.x end1.y
  | .round =>
    let angle1 := atan2 (end1.y - corner.y) (end1.x - corner.x)
    let angle2 := atan2 (end2.y - corner.y) (end2.x - corner.x)
    let angleDiff := normAngle (angle2 - angle1)
    let arcPoints := (List.range (ARC_SEGMENTS + 1)).map fun (i : ℕ) =>
      let t : ℝ := (i : ℝ) / (ARC_SEGMENTS : ℝ)
      let angle := angle1 + t * angleDiff
      Point.mk (corner.x + Real.cos angle * SHAPE_SIZE) (corner.y + Real.sin angle * SHAPE_SIZE)
    corner :: arcPoints

/-- `getCollisionVertices(shape)`: corners are expanded through the
shape's own building style, all other kinds use their raw vertices. -/
noncomputable def getCollisionVertices (s : Shape) : List Point :=
  let verts := shapeVerts s
  if s.type = .corner then
    match verts with
    | c :: e1 :: e2 :: _ => getCornerCollisionVerts c e1 e2 (cornerStyleOf s.building)
    | _ => verts
  else verts

/-- An edge record of `getShapeEdges`. -/
structure Edge where
  v1 : Point
  v2 : Point
  midX : ℝ
  midY : ℝ
  ux : ℝ
  uy : ℝ
  nx : ℝ
  ny : ℝ
  length : ℝ
  shapeId : ℕ
  edgeIndex : ℕ

/-- Consecutive vertex pairs with wrap-around:
`(verts[i], verts[(i+1) % n])` for `i = 0..n-1`. -/
def cyclicPairs (verts : List Point) : List (Point × Point) :=
  verts.zip (verts.rotate 1)

/-- The standard-polygon branch of `getShapeEdges`: one edge per
consecutive pair, skipping edges shorter than `0.001`, outward normal
`(uy, -ux)` (tangent rotated 90° clockwise). -/
noncomputable def mkStdEdges (sid : ℕ) : ℕ → List (Point × Point) → List Edge
  | _, [] => []
  | i, (v1, v2) :: rest =>
    let dx := v2.x - v1.x
    let dy := v2.y - v1.y
    let len := Real.sqrt (dx * dx + dy * dy)
    let tail := mkStdEdges sid (i + 1) rest
    if len < 0.001 then tail
    else
      let ux := dx / len
      let uy := dy / len
      { v1 := v1, v2 := v2, midX := (v1.x + v2.x) / 2, midY := (v1.y + v2.y) / 2,
        ux := ux, uy := uy, nx := uy, ny := -ux, length := len,
        shapeId := sid, edgeIndex := i } :: tail

/-- Corner edge A (`corner → end1`), with the dot-product flip test
against the opposite vertex `end2`. -/
noncomputable def cornerEdgeA (sid : ℕ) (cornerV end1 end2 : Point) : List Edge :=
  let dx := end1.x - cornerV.x
  let dy := end1.y - cornerV.y
  let len := Real.sqrt (dx * dx + dy * dy)
  if len > 0.001 then
    let ux := dx / len
    let uy := dy / len
    let midX := (cornerV.x + end1.x) / 2
    let midY := (cornerV.y + end1.y) / 2
    let toEnd2X := end2.x - midX
    let toEnd2Y := end2.y - midY
    let flip := uy * toEnd2X + -ux * toEnd2Y > 0
    [{ v1 := cornerV, v2 := end1, midX := midX, midY := midY, ux := ux, uy := uy,
       nx := if flip then -uy else uy, ny := if flip then ux else -ux,
       length := len, shapeId := sid, edgeIndex := 0 }]
  else []

/-- Corner edge B (`end2 → corner`), with the dot-product flip test
against the opposite vertex `end1`. -/
noncomputable def cornerEdgeB (sid : ℕ) (cornerV end1 end2 : Point) : List Edge :=
  let dx := cornerV.x - end2.x
  let dy := cornerV.y - end2.y
  let len := Real.sqrt (dx * dx + dy * dy)
  if len > 0.001 then
    let ux := dx / len
    let uy := dy / len
    let midX := (end2.x + cornerV.x) / 2
    let midY := (end2.y + cornerV.y) / 2
    let toEnd1X := end1.x - midX
    let toEnd1Y := end1.y - midY
    let flip := uy * toEnd1X + -ux * toEnd1Y > 0
    [{ v1 := end2, v2 := cornerV, midX := midX, midY := midY, ux := ux, uy := uy,
       nx := if flip then -uy else uy, ny := if flip then ux else -ux,
       length := len, shapeId := sid, edgeIndex := 2 }]
  else []

/-- `getShapeEdges(shape)`: corners expose only their two leg edges,
all other shapes every wrap-around consecutive pair. -/
noncomputable def getShapeEdges (s : Shape) : List Edge :=
  let verts := shapeVerts s
  if s.type = .corner then
    match verts with
    | cornerV :: end1 :: end2 :: _ =>
      cornerEdgeA s.id cornerV end1 end2 ++ cornerEdgeB s.id cornerV end1 end2
    | _ => []
  else mkStdEdges s.id 0 (cyclicPairs verts)

/-- The on-edge test inside `pointStrictlyInPolygon`: the point projects
onto the (1%-extended) edge segment and lies within `EDGE_TOLERANCE` of it. -/
noncomputable def onEdgeNear (px py : ℝ) (v1 v2 : Point) : Prop :=
  let dx := v2.x - v1.x
  let dy := v2.y - v1.y
  let lenSq := dx * dx + dy * dy
  lenSq > 0.001 ∧
    (let t := ((px - v1.x) * dx + (py - v1.y) * dy) / lenSq
     (t ≥ -0.01 ∧ t ≤ 1.01) ∧
       hypot (px - (v1.x + t * dx)) (py - (v1.y + t * dy)) < EDGE_TOLERANCE)

/-- One ray-casting crossing test of the `(i, j)` loop: the edge from
`vj` to `vi` straddles the horizontal through `py` and the crossing lies
to the right of `px`.  (When `vi.y = vj.y` the first conjunct is false,
mirroring JavaScript's short-circuit before the division.) -/
def rayCrossProp (px py : ℝ) (vi vj : Point) : Prop :=
  ¬((vi.y > py) ↔ (vj.y > py)) ∧
    px < (vj.x - vi.x) * (py - vi.y) / (vj.y - vi.y) + vi.x

/-- The `(i, j = i-1 mod n)` index pairs of the ray-casting loop. -/
def jPairs (verts : List Point) : List (Point × Point) :=
  verts.zip (verts.rotate (verts.length - 1))

/-- The parity-toggling ray cast (`inside = !inside`). -/
def rayInside (px py : ℝ) (verts : List Point) : Prop :=
  (jPairs verts).foldl (fun acc pr => Xor' (rayCrossProp px py pr.1 pr.2) acc) False

/-- `pointStrictlyInPolygon(px, py, verts)`: a point within
`EDGE_TOLERANCE` of a boundary edge is *not* strictly inside; otherwise
ray casting decides. -/
noncomputable def pointStrictlyInPolygon (px py : ℝ) (verts : List Point) : Prop :=
  (∀ pr ∈ cyclicPairs verts, ¬ onEdgeNear px py pr.1 pr.2) ∧ rayInside px py verts

/-- `cross(o, a, b)` inside `segmentsIntersect`. -/
def cross (o a b : Point) : ℝ :=
  (a.x - o.x) * (b.y - o.y) - (a.y - o.y) * (b.x - o.x)

/-- `segmentsIntersect(a1, a2, b1, b2)`: proper crossing with an
`eps = 0.01` dead-zone. -/
def segmentsIntersect (a1 a2 b1 b2 : Point) : Prop :=
  let d1 := cross b1 b2 a1
  let d2 := cross b1 b2 a2
  let d3 := cross a1 a2 b1
  let d4 := cross a1 a2 b2
  let eps : ℝ := 0.01
  ((d1 > eps ∧ d2 < -eps) ∨ (d1 < -eps ∧ d2 > eps)) ∧
    ((d3 > eps ∧ d4 < -eps) ∨ (d3 < -eps ∧ d4 > eps))

/-- Some edge of `as` properly crosses some edge of `bs`. -/
def edgeCrossAny (as bs : List Point) : Prop :=
  ∃ pa ∈ cyclicPairs as, ∃ pb ∈ cyclicPairs bs,
    segmentsIntersect pa.1 pa.2 pb.1 pb.2

/-- The per-existing-shape body of the `checkOverlap` loop: duplicate
guard, mutual strict containment, and proper edge crossing. -/
noncomputable def overlapWithShape (newVerts newCollisionVerts : List Point)
    (newCx newCy : ℝ) (shape : Shape) : Prop :=
  let existingVerts := getCollisionVertices shape
  let existingCx := centroidX existingVerts
  let existingCy := centroidY existingVerts
  (hypot (newCx - existingCx) (newCy - existingCy) < SHAPE_SIZE * 0.5 ∧
    ∃ nv ∈ newVerts, ∃ ev ∈ shapeVerts shape,
      hypot (nv.x - ev.x) (nv.y - ev.y) < EDGE_TOLERANCE * 2) ∨
  (∃ v ∈ newCollisionVerts, pointStrictlyInPolygon v.x v.y existingVerts) ∨
  (∃ v ∈ existingVerts, pointStrictlyInPolygon v.x v.y newCollisionVerts) ∨
  edgeCrossAny newCollisionVerts existingVerts

/-- The corner expansion of the candidate inside `checkOverlap`
(`getCornerCollisionVerts(newVerts[0], newVerts[1], newVerts[2], style)`). -/
noncomputable def newCollisionVertsOf (newVerts : List Point) (newType : ShapeType)
    (style : CornerStyle) : List Point :=
  if newType = .corner then
    match newVerts with
    | a :: b :: c :: _ => getCornerCollisionVerts a b c style
    | _ => newVerts
  else newVerts

/-- `checkOverlap(newVerts, newType)`.  `fiefMode` and
`inBuildableArea` stand for the captured `fiefMode` flag and the value
of `isShapeInBuildableArea(newVerts)`; `buildingType` is the captured
currently-selected building type (used only for corner candidates). -/
noncomputable def checkOverlap (fiefMode : Bool) (inBuildableArea : Prop)
    (buildingType : Building) (shapes : List Shape)
    (newVerts : List Point) (newType : ShapeType) : Prop :=
  (fiefMode = true ∧ ¬ inBuildableArea) ∨
    (let newCollisionVerts := newCollisionVertsOf newVerts newType (cornerStyleOf buildingType)
     let newCx := centroidX newVerts
     let newCy := centroidY newVerts
     ∃ shape ∈ shapes, overlapWithShape newVerts newCollisionVerts newCx newCy shape)

/-- `calculateSnappedVertices(edge, shapeType, mouseX, mouseY)`. -/
noncomputable def calculateSnappedVertices (edge : Edge) (shapeType : ShapeType)
    (mouseX mouseY : Option ℝ) : List Point :=
  match shapeType with
  | .square | .stair =>
    let offsetX := edge.nx * SHAPE_SIZE
    let offsetY := edge.ny * SHAPE_SIZE
    [⟨edge.v2.x, edge.v2.y⟩, ⟨edge.v1.x, edge.v1.y⟩,
     ⟨edge.v1.x + offsetX, edge.v1.y + offsetY⟩, ⟨edge.v2.x + offsetX, edge.v2.y + offsetY⟩]
  | .corner =>
    let perpOutward : Prop :=
      match mouseX, mouseY with
      | some mx, some my => (mx - edge.midX) * edge.nx + (my - edge.midY) * edge.ny ≥ 0
      | _, _ => True
    let cornerAtV1 : Prop :=
      match mouseX, mouseY with
      | some mx, some my => (mx - edge.midX) * edge.ux + (my - edge.midY) * edge.uy < 0
      | _, _ => True
    let perpMult : ℝ := if perpOutward then 1 else -1
    let offsetX := edge.nx * SHAPE_SIZE * perpMult
    let offsetY := edge.ny * SHAPE_SIZE * perpMult
    if cornerAtV1 then
      [⟨edge.v1.x, edge.v1.y⟩, ⟨edge.v2.x, edge.v2.y⟩,
       ⟨edge.v1.x + offsetX, edge.v1.y + offsetY⟩]
    else
      [⟨edge.v2.x, edge.v2.y⟩, ⟨edge.v1.x, edge.v1.y⟩,
       ⟨edge.v2.x + offsetX, edge.v2.y + offsetY⟩]
  | .triangle =>
    let apexX := edge.midX + edge.nx * TRI_HEIGHT
    let apexY := edge.midY + edge.ny * TRI_HEIGHT
    [⟨apexX, apexY⟩, ⟨edge.v2.x, edge.v2.y⟩, ⟨edge.v1.x, edge.v1.y⟩]

/-- `getFreeVertices(px, py, shapeType)`. -/
noncomputable def getFreeVertices (px py : ℝ) (shapeType : ShapeType) : List Point :=
  let h := SHAPE_SIZE / 2
  match shapeType with
  | .square | .stair =>
    [⟨px - h, py - h⟩, ⟨px + h, py - h⟩, ⟨px + h, py + h⟩, ⟨px - h, py + h⟩]
  | .corner => [⟨px - h, py - h⟩, ⟨px + h, py - h⟩, ⟨px - h, py + h⟩]
  | .triangle =>
    [⟨px, py - TRI_HEIGHT * 2 / 3⟩, ⟨px + SHAPE_SIZE / 2, py + TRI_HEIGHT / 3⟩,
     ⟨px - SHAPE_SIZE / 2, py + TRI_HEIGHT / 3⟩]

/-- `shapesShareEdge(shape1, shape2)`: some edge of `shape1` matches
some edge of `shape2` endpoint-to-endpoint, in either order, each
endpoint within `EDGE_TOLERANCE * 2`. -/
noncomputable def shapesShareEdge (s1 s2 : Shape) : Prop :=
  let verts1 := shapeVerts s1
  let verts2 := shapeVerts s2
  let tolerance := EDGE_TOLERANCE * 2
  ∃ pa ∈ cyclicPairs verts1, ∃ pb ∈ cyclicPairs verts2,
    (hypot (pa.1.x - pb.1.x) (pa.1.y - pb.1.y) < tolerance ∧
       hypot (pa.2.x - pb.2.x) (pa.2.y - pb.2.y) < tolerance) ∨
    (hypot (pa.1.x - pb.2.x) (pa.1.y - pb.2.y) < tolerance ∧
       hypot (pa.2.x - pb.1.x) (pa.2.y - pb.1.y) < tolerance)

/-- One dequeue step of the flood fill: scan all shapes, adding every
not-yet-grouped shape that shares an edge with `current` to the group
and to the back of the queue. -/
noncomputable def floodScan (current : Shape) (shapes : List Shape)
    (group : List ℕ) (queue : List Shape) : List ℕ × List Shape :=
  shapes.foldl
    (fun acc other =>
      if other.id ∈ acc.1 then acc
      else if shapesShareEdge current other then (acc.1 ++ [other.id], acc.2 ++ [other])
      else acc)
    (group, queue)

/-- The `while (queue.length > 0)` loop of `findConnectedGroup`.  The
source loop terminates because every shape is enqueued at most once
(enqueueing is guarded by group membership); `fuel` bounds the number of
dequeues, and `shapes.length + 1` dequeues always suffice. -/
noncomputable def floodLoop (shapes : List Shape) : ℕ → List ℕ → List Shape → List ℕ
  | 0, group, _ => group
  | _ + 1, group, [] => group
  | fuel + 1, group, current :: queue =>
    let scanned := floodScan current shapes group queue
    floodLoop shapes fuel scanned.1 scanned.2

/-- `findConnectedGroup(startShape)`: breadth-first closure of the
edge-sharing relation, returning ids in insertion order. -/
noncomputable def findConnectedGroup (shapes : List Shape) (startShape : Shape) : List ℕ :=
  floodLoop shapes (shapes.length + 1) [startShape.id] [startShape]

/-- `offsetVertices(verts, dx, dy)`. -/
def offsetVertices (verts : List Point) (dx dy : ℝ) : List Point :=
  verts.map fun v => ⟨v.x + dx, v.y + dy⟩

/-- `rotateVertsAroundPoint(verts, cx, cy, angleDeg)`. -/
noncomputable def rotateVertsAroundPoint (verts : List Point) (cx cy angleDeg : ℝ) : List Point :=
  let rad := angleDeg * π / 180
  let c := Real.cos rad
  let s := Real.sin rad
  verts.map fun v =>
    ⟨cx + (v.x - cx) * c - (v.y - cy) * s, cy + (v.x - cx) * s + (v.y - cy) * c⟩

/-- A `{ ...shape, newVerts }` record of the group-transform pipeline. -/
structure Transformed where
  shape : Shape
  newVerts : List Point

/-- `snapGroupBoundingBoxToGrid(transformedShapes)`: snap the bounding
box's minimum corner to the nearest grid intersection.  (The source
initialises the minimum scan with `Infinity`; a group with no vertices
at all would propagate `NaN` there, which is outside this real-number
model, so that degenerate case returns the input unchanged.) -/
noncomputable def snapGroupBoundingBoxToGrid (gridEnabled : Bool)
    (transformedShapes : List Transformed) : List Transformed :=
  if ¬gridEnabled ∨ transformedShapes.length = 0 then transformedShapes
  else
    match transformedShapes.flatMap Transformed.newVerts with
    | [] => transformedShapes
    | v0 :: rest =>
      let minX := rest.foldl (fun m v => if v.x < m then v.x else m) v0.x
      let minY := rest.foldl (fun m v => if v.y < m then v.y else m) v0.y
      let snappedMinX := (round (minX / CELL_SIZE) : ℝ) * CELL_SIZE
      let snappedMinY := (round (minY / CELL_SIZE) : ℝ) * CELL_SIZE
      let dx := snappedMinX - minX
      let dy := snappedMinY - minY
      transformedShapes.map fun t =>
        { t with newVerts := t.newVerts.map fun v => ⟨v.x + dx, v.y + dy⟩ }

/-- The body of the closest-pair scan in `snapGroupToEdges`: keep the
candidate `(ev - gv)` translation whenever this pair is strictly closer
than the best so far (initially `SNAP_THRESHOLD`). -/
noncomputable def snapFoldStep (acc : Option Point × ℝ) (pr : Point × Point) :
    Option Point × ℝ :=
  let dist := Real.sqrt ((pr.1.x - pr.2.x) ^ 2 + (pr.1.y - pr.2.y) ^ 2)
  if dist < acc.2 then (some (Point.mk (pr.2.x - pr.1.x) (pr.2.y - pr.1.y)), dist) else acc

/-- `snapGroupToEdges(transformedShapes, groupIds)`: find the closest
(external vertex, group vertex) pair under `SNAP_THRESHOLD` and
translate the whole group so they coincide. -/
noncomputable def snapGroupToEdges (shapes : List Shape)
    (transformedShapes : List Transformed) (groupIds : List ℕ) : List Transformed :=
  if transformedShapes.length = 0 then transformedShapes
  else
    let externalVertices := (shapes.filter fun s => s.id ∉ groupIds).flatMap shapeVerts
    if externalVertices.length = 0 then transformedShapes
    else
      let groupVertices := transformedShapes.flatMap Transformed.newVerts
      let best :=
        (groupVertices.flatMap fun gv => externalVertices.map fun ev => (gv, ev)).foldl
          snapFoldStep ((none : Option Point), SNAP_THRESHOLD)
      match best.1 with
      | some bestSnap =>
        transformedShapes.map fun t =>
          { t with newVerts := t.newVerts.map fun v => ⟨v.x + bestSnap.x, v.y + bestSnap.y⟩ }
      | none => transformedShapes

/-- `checkGroupOverlap(transformedShapes, groupIds)`: any transformed
group shape against any non-group shape — containment, proper edge
crossing, or the near-coincidence guard (which reads `other._verts || []`). -/
noncomputable def checkGroupOverlap (shapes : List Shape)
    (transformedShapes : List Transformed) (groupIds : List ℕ) : Prop :=
  let nonGroupShapes := shapes.filter fun s => s.id ∉ groupIds
  ∃ t ∈ transformedShapes,
    let newVerts := t.newVerts
    let newCollisionVerts :=
      newCollisionVertsOf newVerts t.shape.type (cornerStyleOf t.shape.building)
    ∃ other ∈ nonGroupShapes,
      let existingVerts := getCollisionVertices other
      (∃ v ∈ newCollisionVerts, pointStrictlyInPolygon v.x v.y existingVerts) ∨
      (∃ v ∈ existingVerts, pointStrictlyInPolygon v.x v.y newCollisionVerts) ∨
      edgeCrossAny newCollisionVerts existingVerts ∨
      (hypot (centroidX newVerts - centroidX existingVerts)
          (centroidY newVerts - centroidY existingVerts) < SHAPE_SIZE * 0.5 ∧
        ∃ nv ∈ newVerts, ∃ ev ∈ other._verts.getD [],
          hypot (nv.x - ev.x) (nv.y - ev.y) < EDGE_TOLERANCE * 2)

/-- The two kinds of committed group gesture in `handleMouseUp`:
a drag (`isDraggingGroup`, with `dragOffset`) or a rotation
(`isRotatingGroup`, about `groupRotationCenter` by `groupRotationAngle`). -/
inductive GroupMode where
  | dragging (dragOffset : Point)
  | rotating (center : Point) (angleDeg : ℝ)

/-- `isDraggingGroup`. -/
def GroupMode.isDragging : GroupMode → Bool
  | .dragging _ => true
  | .rotating _ _ => false

/-- The initial `transformedShapes` of the group commit: each group
shape's vertices offset by the drag delta or rotated about the group
rotation centre. -/
noncomputable def groupTransformedShapes (shapes : List Shape) (groupIds : List ℕ)
    (mode : GroupMode) : List Transformed :=
  (shapes.filter fun s => s.id ∈ groupIds).map fun shape =>
    let verts := shapeVerts shape
    match mode with
    | .rotating c a => ⟨shape, rotateVertsAroundPoint verts c.x c.y a⟩
    | .dragging off => ⟨shape, offsetVertices verts off.x off.y⟩

/-- The transformed vertex set finally used by the group commit:
optional bounding-box grid snap, then (for drags) the vertex snap, which
is reverted to the saved pre-snap copy if it makes `checkGroupOverlap`
fire. -/
noncomputable def resolveGroupTransform (shapes : List Shape) (groupIds : List ℕ)
    (mode : GroupMode) (gridEnabled : Bool) : List Transformed :=
  let transformed0 := groupTransformedShapes shapes groupIds mode
  let transformed1 :=
    if mode.isDragging ∧ gridEnabled then snapGroupBoundingBoxToGrid gridEnabled transformed0
    else transformed0
  let preSnapShapes := transformed1
  let transformed2 :=
    if mode.isDragging then snapGroupToEdges shapes transformed1 groupIds else transformed1
  if checkGroupOverlap shapes transformed2 groupIds ∧ mode.isDragging then preSnapShapes
  else transformed2

/-- The per-shape update of the accepted group commit
(`setShapes(prev => prev.map(...))`): non-group shapes pass through;
group shapes take the matching transformed vertex list, the recomputed
centroid, and (for rotations) the incremented rotation. -/
noncomputable def applyGroupCommit (groupIds : List ℕ) (mode : GroupMode)
    (finalTransformed : List Transformed) (shape : Shape) : Shape :=
  if shape.id ∉ groupIds then shape
  else
    match finalTransformed.find? (fun t => t.shape.id == shape.id) with
    | none => shape
    | some t =>
      let newVerts := t.newVerts
      let cx := centroidX newVerts
      let cy := centroidY newVerts
      let newRotation :=
        match mode with
        | .rotating _ a => shape.rotation + a
        | .dragging _ => shape.rotation
      { shape with x := cx, y := cy, rotation := newRotation, _verts := some newVerts }

/-- The group-commit section of `handleMouseUp`: if the finally chosen
transform still overlaps, nothing is committed; otherwise every shape is
updated through `applyGroupCommit`. -/
noncomputable def commitGroupTransform (shapes : List Shape) (groupIds : List ℕ)
    (mode : GroupMode) (gridEnabled : Bool) : List Shape :=
  let finalTransformed := resolveGroupTransform shapes groupIds mode gridEnabled
  if checkGroupOverlap shapes finalTransformed groupIds then shapes
  else shapes.map (applyGroupCommit groupIds mode finalTransformed)

/-- `typeCode` of `compressShapes` (`square 0, triangle 1, corner 2, stair 3`). -/
def typeCode : ShapeType → ℤ
  | .square => 0
  | .triangle => 1
  | .corner => 2
  | .stair => 3

/-- `buildingCode` of `compressShapes`. -/
def buildingCode : Building → ℤ
  | .atreides => 0
  | .harkonnen => 1
  | .choamShelter => 2
  | .choamFacility => 3

/-- `typeFromCode[n] || 'square'`. -/
def typeFromCode (n : ℤ) : ShapeType :=
  if n = 0 then .square
  else if n = 1 then .triangle
  else if n = 2 then .corner
  else if n = 3 then .stair
  else .square

/-- `buildingFromCode[n] || defaultBuilding`. -/
def buildingFromCodeD (defaultBuilding : Building) (n : ℤ) : Building :=
  if n = 0 then .atreides
  else if n = 1 then .harkonnen
  else if n = 2 then .choamShelter
  else if n = 3 then .choamFacility
  else defaultBuilding

/-- One shape of `compressShapes`:
`[typeCode, buildingCode, ...verts.flatMap(pt => [round(x), round(y)])]`. -/
noncomputable def compressShape (s : Shape) : List ℤ :=
  typeCode s.type :: buildingCode s.building ::
    (s._verts.getD []).flatMap fun pt => [round pt.x, round pt.y]

/-- `compressShapes(floorShapes)`. -/
noncomputable def compressShapes (floorShapes : List Shape) : List (List ℤ) :=
  floorShapes.map compressShape

/-- The decoder's coordinate-pair loop
`for (j = vertStart; j < s.length; j += 2) verts.push({x: s[j], y: s[j+1]})`. -/
def parsePairs : List ℤ → List Point
  | x :: y :: rest => ⟨(x : ℝ), (y : ℝ)⟩ :: parsePairs rest
  | _ => []

/-- One ultra-compact shape of `expandCompressedShapes`: detect the
optional building code (`s[1] ∈ [0,3]` with an even number of remaining
entries), parse the vertices, and recompute centroid and rotation from
them. -/
noncomputable def decodeUltraShape (defaultBuilding : Building) (baseId : ℕ)
    (i : ℕ) (s : List ℤ) : Shape :=
  let type := typeFromCode s.headI
  let cond := 2 ≤ s.length ∧ 0 ≤ s.getD 1 0 ∧ s.getD 1 0 ≤ 3 ∧ (s.length - 2) % 2 = 0
  let building := if cond then buildingFromCodeD defaultBuilding (s.getD 1 0) else defaultBuilding
  let verts := if cond then parsePairs (s.drop 2) else parsePairs (s.drop 1)
  let cx := if 0 < verts.length then centroidX verts else 0
  let cy := if 0 < verts.length then centroidY verts else 0
  { id := baseId + i, type := type, x := cx, y := cy,
    rotation := rotationFromVerts type verts cx cy,
    building := building, _verts := some verts }

/-- `expandCompressedShapes(compressedShapes, startId)` on the
ultra-compact (array-of-numeric-arrays) wire form; `baseId` stands for
`Date.now() + startId`. -/
noncomputable def expandCompressedShapes (defaultBuilding : Building) (baseId : ℕ)
    (compressedShapes : List (List ℤ)) : List Shape :=
  if compressedShapes.length = 0 then []
  else compressedShapes.enum.map fun p => decodeUltraShape defaultBuilding baseId p.1 p.2

/-- A shape record freshly built from a pose, with no cached vertex
list (so every consumer falls back to `getVertices`). -/
def mkPoseShape (t : ShapeType) (x y θ : ℝ) (id : ℕ) (b : Building) : Shape :=
  { id := id, type := t, x := x, y := y, rotation := θ, building := b, _verts := none }

/-- The committed first Square of the §8 scenario: centroid at the
world origin, rotation 0, cached axis-aligned vertices. -/
def originSquare : Shape :=
  { id := 0, type := .square, x := 0, y := 0, rotation := 0, building := .atreides,
    _verts := some [⟨-25, -25⟩, ⟨25, -25⟩, ⟨25, 25⟩, ⟨-25, 25⟩] }

/-- Square B of the flood-fill L: centroid `(50, 0)`, flush against
`originSquare`'s right edge. -/
def sqB : Shape :=
  { id := 1, type := .square, x := 50, y := 0, rotation := 0, building := .atreides,
    _verts := some [⟨25, -25⟩, ⟨75, -25⟩, ⟨75, 25⟩, ⟨25, 25⟩] }

/-- Square C of the flood-fill L: centroid `(50, 50)`, flush against
`sqB`'s top edge (sharing no edge with `originSquare`). -/
def sqC : Shape :=
  { id := 2, type := .square, x := 50, y := 50, rotation := 0, building := .atreides,
    _verts := some [⟨25, 25⟩, ⟨75, 25⟩, ⟨75, 75⟩, ⟨25, 75⟩] }

/-- Square D: centroid `(200, 200)`, far from the L, sharing no edge
with any of its members. -/
def sqD : Shape :=
  { id := 3, type := .square, x := 200, y := 200, rotation := 0, building := .atreides,
    _verts := some [⟨175, 175⟩, ⟨225, 175⟩, ⟨225, 225⟩, ⟨175, 225⟩] }

/-- The flood-fill scenario's placed list: the L (`originSquare`,
`sqB`, `sqC`) plus the disconnected `sqD`. -/
def lShapes : List Shape := [originSquare, sqB, sqC, sqD]

/-- The spec's wording of the connectivity relation ("some edge of one
matches both endpoints of some edge of the other, each within distance
2×EDGE_TOLERANCE, in either endpoint order"), to be compared with the
source's `shapesShareEdge`. -/
noncomputable def specConnected (s1 s2 : Shape) : Prop :=
  ∃ e1 ∈ cyclicPairs (shapeVerts s1), ∃ e2 ∈ cyclicPairs (shapeVerts s2),
    (hypot (e1.1.x - e2.1.x) (e1.1.y - e2.1.y) < 2 * EDGE_TOLERANCE ∧
      hypot (e1.2.x - e2.2.x) (e1.2.y - e2.2.y) < 2 * EDGE_TOLERANCE) ∨
    (hypot (e1.1.x - e2.2.x) (e1.1.y - e2.2.y) < 2 * EDGE_TOLERANCE ∧
      hypot (e1.2.x - e2.1.x) (e1.2.y - e2.1.y) < 2 * EDGE_TOLERANCE)

/-- A sample shape for exercising the codec: a Harkonnen triangle with
non-integer vertex coordinates. -/
noncomputable def codecSample : Shape :=
  { id := 42, type := .triangle, x := 0, y := 0, rotation := 0, building := .harkonnen,
    _verts := some [⟨1 / 4, -(1 / 2)⟩, ⟨50, 0⟩, ⟨0, 50⟩] }

/-- The corrected pose round-trip property (see `C1_amended`): for a
rotation in `(-90°, 180°]`, regenerating a pose from generated vertices
gives back the centroid exactly for Square/Stair/Triangle, the rotation
exactly for Corner/Triangle, while Square/Stair rotation comes back as
`θ + 180` and the Corner centroid comes back displaced by the rotated
template mean `(-25/3, -25/3)`. -/
noncomputable def PoseRoundTrip (x y θ : ℝ) (id : ℕ) (b : Building) : Prop :=
  let rad := θ * π / 180
  let sq := verticesToShape (getVerticesAt .square x y θ) .square id b
  let st := verticesToShape (getVerticesAt .stair x y θ) .stair id b
  let co := verticesToShape (getVerticesAt .corner x y θ) .corner id b
  let tr := verticesToShape (getVerticesAt .triangle x y θ) .triangle id b
  (sq.x = x ∧ sq.y = y ∧ sq.rotation = θ + 180) ∧
  (st.x = x ∧ st.y = y ∧ st.rotation = θ + 180) ∧
  (co.x = x + (25 * Real.sin rad - 25 * Real.cos rad) / 3 ∧
    co.y = y - (25 * Real.sin rad + 25 * Real.cos rad) / 3 ∧ co.rotation = θ) ∧
  (tr.x = x ∧ tr.y = y ∧ tr.rotation = θ)

/-- A Square centred at `(100, 100)` with its axis-aligned outline
cached in `_verts`; the external (non-group) obstacle of the group-snap
scenario. -/
def snapE2 : Shape :=
  { id := 0, type := .square, x := 100, y := 100, rotation := 0, building := .atreides,
    _verts := some [⟨75, 75⟩, ⟨125, 75⟩, ⟨125, 125⟩, ⟨75, 125⟩] }

/-- A Square centred at `(100, 80)`, 20 units below `snapE2`; the single
member of the dragged group in the group-snap scenario. -/
def snapG : Shape :=
  { id := 1, type := .square, x := 100, y := 80, rotation := 0, building := .atreides,
    _verts := some [⟨75, 55⟩, ⟨125, 55⟩, ⟨125, 105⟩, ⟨75, 105⟩] }

/-- The shape list of the group-snap scenario. -/
def snapShapes : List Shape := [snapE2, snapG]

/-- A Square exactly coincident with `snapE2` but with id 1; used to
exercise the rejected branch of the group commit. -/
def snapDup : Shape :=
  { id := 1, type := .square, x := 100, y := 100, rotation := 0, building := .atreides,
    _verts := some [⟨75, 75⟩, ⟨125, 75⟩, ⟨125, 125⟩, ⟨75, 125⟩] }

/-- The shape list of the rejected-commit scenario. -/
def dupShapes : List Shape := [snapE2, snapDup]

/-- A claimed-area direction; `dirFromCode[a[0]]` on the ultra-compact
path has no `|| 'top'` fallback, so out-of-range codes give `undefined`,
modelled as `none`. -/
inductive ClaimedDir where
  | top
  | bottom
  | left
  | right

/-- `dirFromCode = ['top', 'bottom', 'left', 'right']` indexing. -/
def dirFromCode (n : ℤ) : Option ClaimedDir :=
  if n = 0 then some .top
  else if n = 1 then some .bottom
  else if n = 2 then some .left
  else if n = 3 then some .right
  else none

/-- `a[1] === 0 ? 'main' : a[1]` of the claimed-area decode. -/
inductive ParentRef where
  | main
  | idNum (n : ℤ)

/-- One decoded claimed area of the URL-decode effect. -/
structure ClaimedArea where
  id : ℕ
  direction : Option ClaimedDir
  parentId : ParentRef

/-- One decoded placed item (`{id, itemType, x, y}`). -/
structure PlacedItem where
  id : ℕ
  itemType : ℤ
  x : ℝ
  y : ℝ

/-- The slice of React state touched by the single-floor branch of the
URL-decode effect that our payloads exercise: `shapes`, `claimedAreas`,
`placedItems` (the payloads carry none of the other optional setting
keys, whose `!== undefined` guards then skip). -/
structure DecodeState where
  shapes : List Shape
  claimedAreas : List ClaimedArea
  placedItems : List PlacedItem

/-- The JSON value found under `"ca"`: either an array of ultra-compact
`[dirCode, parentId]` rows, or (malformed) a plain string. -/
inductive CaField where
  | arr (entries : List (ℤ × ℤ))
  | str (txt : String)

/-- A decoded single-floor share payload carrying ultra-compact shapes
`s`, an optional claimed-areas field `ca` and optional placed items
`pi`; the multi-floor keys `fs`/`fi` and the setting keys are absent. -/
structure SharedPayloadSF where
  s : List (List ℤ)
  ca : Option CaField
  pi : Option (List (ℤ × ℝ × ℝ))

/-- `state.ca.map((a, i) => ({id, direction, parentId}))` on the
ultra-compact rows. -/
def expandClaimed (baseCa : ℕ) (entries : List (ℤ × ℤ)) : List ClaimedArea :=
  entries.enum.map fun (p : ℕ × ℤ × ℤ) =>
    { id := baseCa + p.1, direction := dirFromCode p.2.1,
      parentId := if p.2.2 = 0 then ParentRef.main else ParentRef.idNum p.2.2 }

/-- `state.pi.map((item, i) => ({id, itemType: item[0], x: item[1],
y: item[2]}))`. -/
def expandPlacedItems (basePi : ℕ) (items : List (ℤ × ℝ × ℝ)) : List PlacedItem :=
  items.enum.map fun (p : ℕ × ℤ × ℝ × ℝ) =>
    { id := basePi + p.1, itemType := p.2.1, x := p.2.2.1, y := p.2.2.2 }

/-- The single-floor branch of the URL-decode `useEffect` on a
`SharedPayloadSF`.  React state setters apply in program order inside the
`try`; the returned Bool is `true` when a `TypeError` escapes to the
logging `catch`: a non-empty string under `ca` passes the
`state.ca && state.ca.length > 0` guard and then crashes at
`state.ca.map`, after `setShapes(expandedShapes)` has already run.
`baseId`, `baseCa`, `basePi` stand for `Date.now()`, `Date.now() + 1000`
and `Date.now() + 2000`. -/
noncomputable def decodeSingleFloor (defaultBuilding : Building)
    (baseId baseCa basePi : ℕ) (st : DecodeState) (p : SharedPayloadSF) :
    DecodeState × Bool :=
  if p.s.length = 0 then ({ st with shapes := [] }, false)
  else
    let st1 := { st with shapes := expandCompressedShapes defaultBuilding baseId p.s }
    let stepPi := fun (st' : DecodeState) =>
      match p.pi with
      | none => (st', false)
      | some items =>
        if items.length = 0 then (st', false)
        else ({ st' with placedItems := expandPlacedItems basePi items }, false)
    match p.ca with
    | none => stepPi st1
    | some (.arr entries) =>
      if entries.length = 0 then stepPi st1
      else stepPi { st1 with claimedAreas := expandClaimed baseCa entries }
    | some (.str txt) =>
      if txt.length = 0 then stepPi st1
      else (st1, true)

/-- The malformed share payload `{"s":[[0,0,0,0,50,0,50,50,0,50]],
"ca":"ab"}` (its `d` URL parameter being the
`LZString.compressToEncodedURIComponent` of that JSON text): valid
ultra-compact shapes followed by a `ca` field that is a string instead
of an array. -/
def failingSharedPayload : SharedPayloadSF :=
  { s := [[0, 0, 0, 0, 50, 0, 50, 50, 0, 50]], ca := some (.str "ab"), pi := none }

/-! ### Theorems -/

theorem hypot_nonneg (x y : ℝ) : 0 ≤ hypot x y := Real.sqrt_nonneg _

theorem hypot_lt_iff {c : ℝ} (hc : 0 < c) (x y : ℝ) :
    hypot x y < c ↔ x ^ 2 + y ^ 2 < c ^ 2 := Real.sqrt_lt' hc

@[simp] theorem hypot_lt_two (x y : ℝ) :
    hypot x y < 2 ↔ x ^ 2 + y ^ 2 < 4 := by
  rw [hypot_lt_iff (by norm_num)]; norm_num

@[simp] theorem hypot_lt_four (x y : ℝ) :
    hypot x y < 4 ↔ x ^ 2 + y ^ 2 < 16 := by
  rw [hypot_lt_iff (by norm_num)]; norm_num

@[simp] theorem hypot_lt_twentyfive (x y : ℝ) :
    hypot x y < 25 ↔ x ^ 2 + y ^ 2 < 625 := by
  rw [hypot_lt_iff (by norm_num)]; norm_num

@[simp] theorem hypot_lt_hundred (x y : ℝ) :
    hypot x y < 100 ↔ x ^ 2 + y ^ 2 < 10000 := by
  rw [hypot_lt_iff (by norm_num)]; norm_num

@[simp] theorem hypot_lt_shapehalf (x y : ℝ) :
    hypot x y < SHAPE_SIZE * 0.5 ↔ x ^ 2 + y ^ 2 < 625 := by
  rw [show SHAPE_SIZE * 0.5 = 25 by norm_num [SHAPE_SIZE]]
  exact hypot_lt_twentyfive x y

@[simp] theorem hypot_lt_shapehalf2 (x y : ℝ) :
    hypot x y < SHAPE_SIZE * (1 / 2) ↔ x ^ 2 + y ^ 2 < 625 := by
  rw [show SHAPE_SIZE * (1 / 2 : ℝ) = 25 by norm_num [SHAPE_SIZE]]
  exact hypot_lt_twentyfive x y

@[simp] theorem hypot_lt_toltwo (x y : ℝ) :
    hypot x y < EDGE_TOLERANCE * 2 ↔ x ^ 2 + y ^ 2 < 16 := by
  rw [show EDGE_TOLERANCE * 2 = 4 by norm_num [EDGE_TOLERANCE]]
  exact hypot_lt_four x y

/-- `atan2` recovers the angle of a positively scaled unit vector, for
angles in the principal range `(-π, π]`. -/
theorem atan2_mul_cos_sin {r θ : ℝ} (hr : 0 < r) (h1 : -π < θ) (h2 : θ ≤ π) :
    atan2 (r * Real.sin θ) (r * Real.cos θ) = θ := by
  unfold atan2
  have h : (⟨r * Real.cos θ, r * Real.sin θ⟩ : ℂ) =
      (r : ℂ) * (Complex.cos θ + Complex.sin θ * Complex.I) := by
    apply Complex.ext <;>
      simp [Complex.mul_re, Complex.mul_im, Complex.cos_ofReal_re, Complex.cos_ofReal_im,
        Complex.sin_ofReal_re, Complex.sin_ofReal_im]
  rw [h, Complex.arg_mul_cos_add_sin_mul_I hr ⟨h1, h2⟩]

/-- `atan2 0 x = 0` for nonnegative `x`. -/
theorem atan2_zero_of_nonneg {x : ℝ} (hx : 0 ≤ x) : atan2 0 x = 0 := by
  unfold atan2
  exact Complex.arg_ofReal_of_nonneg hx

/-- Evaluation of the square vertex generator at the origin pose. -/
theorem getVerticesAt_square_origin :
    getVerticesAt .square 0 0 0 = [⟨-25, -25⟩, ⟨25, -25⟩, ⟨25, 25⟩, ⟨-25, 25⟩] := by
  simp only [getVerticesAt, localVerts, SHAPE_SIZE, List.map_cons, List.map_nil]
  norm_num [Point.mk.injEq]

theorem rad_gt_neg_pi {θ : ℝ} (h : -180 < θ) : -π < θ * π / 180 := by
  nlinarith [Real.pi_pos]

theorem rad_le_pi {θ : ℝ} (h : θ ≤ 180) : θ * π / 180 ≤ π := by
  nlinarith [Real.pi_pos]

theorem rad_deg_cancel (θ : ℝ) : θ * π / 180 * 180 / π = θ := by
  field_simp

theorem centroid_square (x y θ : ℝ) :
    centroidX (getVerticesAt .square x y θ) = x ∧
      centroidY (getVerticesAt .square x y θ) = y := by
  simp only [centroidX, centroidY, getVerticesAt, localVerts, SHAPE_SIZE, List.map_cons,
    List.map_nil, List.sum_cons, List.sum_nil, List.length_cons, List.length_nil]
  norm_num
  constructor <;> ring

theorem centroid_stair (x y θ : ℝ) :
    centroidX (getVerticesAt .stair x y θ) = x ∧
      centroidY (getVerticesAt .stair x y θ) = y := by
  simp only [centroidX, centroidY, getVerticesAt, localVerts, SHAPE_SIZE, List.map_cons,
    List.map_nil, List.sum_cons, List.sum_nil, List.length_cons, List.length_nil]
  norm_num
  constructor <;> ring

theorem centroid_triangle (x y θ : ℝ) :
    centroidX (getVerticesAt .triangle x y θ) = x ∧
      centroidY (getVerticesAt .triangle x y θ) = y := by
  simp only [centroidX, centroidY, getVerticesAt, localVerts, SHAPE_SIZE, List.map_cons,
    List.map_nil, List.sum_cons, List.sum_nil, List.length_cons, List.length_nil]
  norm_num
  constructor <;> ring

theorem centroid_corner (x y θ : ℝ) :
    centroidX (getVerticesAt .corner x y θ) =
        x + (25 * Real.sin (θ * π / 180) - 25 * Real.cos (θ * π / 180)) / 3 ∧
      centroidY (getVerticesAt .corner x y θ) =
        y - (25 * Real.sin (θ * π / 180) + 25 * Real.cos (θ * π / 180)) / 3 := by
  simp only [centroidX, centroidY, getVerticesAt, localVerts, SHAPE_SIZE, List.map_cons,
    List.map_nil, List.sum_cons, List.sum_nil, List.length_cons, List.length_nil]
  norm_num
  constructor <;> ring

theorem rotation_square (x y θ : ℝ) (h1 : -90 < θ) (h2 : θ ≤ 180) (cx cy : ℝ) :
    rotationFromVerts .square (getVerticesAt .square x y θ) cx cy = θ + 180 := by
  simp only [getVerticesAt, localVerts, SHAPE_SIZE, List.map_cons, List.map_nil,
    rotationFromVerts]
  norm_num
  rw [show 25 * Real.sin (θ * π / 180) + 25 * Real.sin (θ * π / 180) =
        50 * Real.sin (θ * π / 180) by ring,
    show 25 * Real.cos (θ * π / 180) + 25 * Real.cos (θ * π / 180) =
        50 * Real.cos (θ * π / 180) by ring,
    atan2_mul_cos_sin (by norm_num) (rad_gt_neg_pi (by linarith)) (rad_le_pi h2),
    rad_deg_cancel]

theorem rotation_stair (x y θ : ℝ) (h1 : -90 < θ) (h2 : θ ≤ 180) (cx cy : ℝ) :
    rotationFromVerts .stair (getVerticesAt .stair x y θ) cx cy = θ + 180 := by
  simp only [getVerticesAt, localVerts, SHAPE_SIZE, List.map_cons, List.map_nil,
    rotationFromVerts]
  norm_num
  rw [show 25 * Real.sin (θ * π / 180) + 25 * Real.sin (θ * π / 180) =
        50 * Real.sin (θ * π / 180) by ring,
    show 25 * Real.cos (θ * π / 180) + 25 * Real.cos (θ * π / 180) =
        50 * Real.cos (θ * π / 180) by ring,
    atan2_mul_cos_sin (by norm_num) (rad_gt_neg_pi (by linarith)) (rad_le_pi h2),
    rad_deg_cancel]

theorem rotation_corner (x y θ : ℝ) (h1 : -90 < θ) (h2 : θ ≤ 180) (cx cy : ℝ) :
    rotationFromVerts .corner (getVerticesAt .corner x y θ) cx cy = θ := by
  simp only [getVerticesAt, localVerts, SHAPE_SIZE, List.map_cons, List.map_nil,
    rotationFromVerts]
  norm_num
  rw [show 25 * Real.sin (θ * π / 180) + 25 * Real.sin (θ * π / 180) =
        50 * Real.sin (θ * π / 180) by ring,
    show 25 * Real.cos (θ * π / 180) + 25 * Real.cos (θ * π / 180) =
        50 * Real.cos (θ * π / 180) by ring,
    atan2_mul_cos_sin (by norm_num) (rad_gt_neg_pi (by linarith)) (rad_le_pi h2),
    rad_deg_cancel]

theorem rotation_triangle (x y θ : ℝ) (h1 : -90 < θ) (h2 : θ ≤ 180) :
    rotationFromVerts .triangle (getVerticesAt .triangle x y θ) x y = θ := by
  simp only [getVerticesAt, localVerts, List.map_cons, List.map_nil, rotationFromVerts]
  have hk : (0 : ℝ) < TRI_HEIGHT * 2 / 3 := by
    unfold TRI_HEIGHT SHAPE_SIZE
    positivity
  norm_num
  rw [show -(TRI_HEIGHT * 2) / 3 * Real.cos (θ * π / 180) =
        TRI_HEIGHT * 2 / 3 * Real.sin (θ * π / 180 - π / 2) by
      simp [Real.sin_sub]; ring,
    show -(-(TRI_HEIGHT * 2) / 3 * Real.sin (θ * π / 180)) =
        TRI_HEIGHT * 2 / 3 * Real.cos (θ * π / 180 - π / 2) by
      simp [Real.cos_sub]; ring,
    atan2_mul_cos_sin hk
      (by nlinarith [Real.pi_pos] : -π < θ * π / 180 - π / 2)
      (by nlinarith [Real.pi_pos] : θ * π / 180 - π / 2 ≤ π)]
  field_simp
  ring

/-- **C1** (amended).  For every centroid and every rotation θ in
`(-90°, 180°]`, recovering the pose from the generated world vertices
(`verticesToShape ∘ getVertices`) gives: for Triangle the original
centroid and rotation exactly; for Corner the original rotation but a
centroid displaced by the rotated template mean `(-25/3, -25/3)`; for
Square and Stair the original centroid but rotation `θ + 180`.  The
claim's exact round-trip holds only for Triangle. -/
theorem C1_pose_roundtrip_amended (x y θ : ℝ) (id : ℕ) (b : Building)
    (h1 : -90 < θ) (h2 : θ ≤ 180) : PoseRoundTrip x y θ id b := by
  simp only [PoseRoundTrip, verticesToShape]
  refine ⟨⟨(centroid_square x y θ).1, (centroid_square x y θ).2,
      rotation_square x y θ h1 h2 _ _⟩,
    ⟨(centroid_stair x y θ).1, (centroid_stair x y θ).2,
      rotation_stair x y θ h1 h2 _ _⟩,
    ⟨(centroid_corner x y θ).1, (centroid_corner x y θ).2,
      rotation_corner x y θ h1 h2 _ _⟩,
    ⟨(centroid_triangle x y θ).1, (centroid_triangle x y θ).2, ?_⟩⟩
  rw [(centroid_triangle x y θ).1, (centroid_triangle x y θ).2]
  exact rotation_triangle x y θ h1 h2

/-- **C1** (counterexample).  The claimed exact round-trip
`poseFromVertices (verticesFromPose pose) = pose` fails on the code: a
Square at the origin with rotation `0` comes back with recovered
rotation `180` (the `+180°` offset of the Square/Stair recovery rule),
not `0`. -/
theorem C1_counterexample :
    (verticesToShape (getVerticesAt .square 0 0 0) .square 0 .atreides).rotation ≠ 0 := by
  simp only [verticesToShape]
  rw [rotation_square 0 0 0 (by norm_num) (by norm_num)]
  norm_num

/-- **C1** (witness): the amended round-trip instantiated at centroid
`(1, 2)`, rotation `0`. -/
theorem C1_witness :
    ((-90 : ℝ) < 0 ∧ (0 : ℝ) ≤ 180) ∧ PoseRoundTrip 1 2 0 0 Building.atreides :=
  ⟨⟨by norm_num, by norm_num⟩,
    C1_pose_roundtrip_amended 1 2 0 0 .atreides (by norm_num) (by norm_num)⟩

theorem steppedPoints_length (d1x d1y d2x d2y : ℝ) (n : ℕ) (cx cy : ℝ) :
    (steppedPoints d1x d1y d2x d2y n cx cy).length = 2 * n := by
  induction n generalizing cx cy with
  | zero => rfl
  | succ k ih => simp [steppedPoints, ih]; ring

/-- **C4**.  For every (corner, end1, end2) triple the corner collision
approximator returns 14 points for the round style (the corner plus 13
samples, all at squared distance `S² = 2500` from the corner vertex), 8
points for the stepped style, and 5 points for the diagonal style. -/
theorem arc_radius (cx cy a : ℝ) :
    (cx + Real.cos a * SHAPE_SIZE - cx) ^ 2 + (cy + Real.sin a * SHAPE_SIZE - cy) ^ 2 =
      SHAPE_SIZE ^ 2 := by
  simp only [SHAPE_SIZE]
  linear_combination (2500 : ℝ) * Real.sin_sq_add_cos_sq a

theorem C4_corner_collision_counts (corner end1 end2 : Point) :
    (getCornerCollisionVerts corner end1 end2 .round).length = 14 ∧
    (getCornerCollisionVerts corner end1 end2 .stepped).length = 8 ∧
    (getCornerCollisionVerts corner end1 end2 .diagonal).length = 5 ∧
    ∀ p ∈ (getCornerCollisionVerts corner end1 end2 .round).tail,
      (p.x - corner.x) ^ 2 + (p.y - corner.y) ^ 2 = SHAPE_SIZE ^ 2 := by
  refine ⟨?_, ?_, ?_, ?_⟩
  · simp only [getCornerCollisionVerts]
    rw [List.length_cons, List.length_map, List.length_range]
    rfl
  · simp [getCornerCollisionVerts, steppedPoints_length, CORNER_STEPS]
  · simp [getCornerCollisionVerts]
  · intro p hp
    simp only [getCornerCollisionVerts, List.tail_cons, List.mem_map] at hp
    obtain ⟨i, _, rfl⟩ := hp
    exact arc_radius corner.x corner.y _

/-- **C4** (witness): at the right-angle triple `(0,0), (50,0), (0,50)`
the first arc sample is `(50, 0)` and it lies at squared distance
`2500` from the corner. -/
theorem C4_witness :
    (⟨50, 0⟩ : Point) ∈ (getCornerCollisionVerts ⟨0, 0⟩ ⟨50, 0⟩ ⟨0, 50⟩ .round).tail ∧
      (((⟨50, 0⟩ : Point)).x - ((⟨0, 0⟩ : Point)).x) ^ 2 +
        (((⟨50, 0⟩ : Point)).y - ((⟨0, 0⟩ : Point)).y) ^ 2 = SHAPE_SIZE ^ 2 := by
  have hmem : (⟨50, 0⟩ : Point) ∈
      (getCornerCollisionVerts ⟨0, 0⟩ ⟨50, 0⟩ ⟨0, 50⟩ .round).tail := by
    simp only [getCornerCollisionVerts, List.tail_cons, List.mem_map]
    refine ⟨0, ?_, ?_⟩
    · exact List.mem_range.mpr (by norm_num)
    · norm_num [atan2_zero_of_nonneg, Point.mk.injEq, SHAPE_SIZE]
  exact ⟨hmem, (C4_corner_collision_counts ⟨0, 0⟩ ⟨50, 0⟩ ⟨0, 50⟩).2.2.2 ⟨50, 0⟩ hmem⟩

theorem cyclicPairs_four (a b c d : Point) :
    cyclicPairs [a, b, c, d] = [(a, b), (b, c), (c, d), (d, a)] := by
  simp [cyclicPairs, List.rotate]

theorem cyclicPairs_three (a b c : Point) :
    cyclicPairs [a, b, c] = [(a, b), (b, c), (c, a)] := by
  simp [cyclicPairs, List.rotate]

theorem jPairs_four (a b c d : Point) :
    jPairs [a, b, c, d] = [(a, d), (b, a), (c, b), (d, c)] := by
  simp [jPairs, List.rotate]

theorem jPairs_three (a b c : Point) :
    jPairs [a, b, c] = [(a, c), (b, a), (c, b)] := by
  simp [jPairs, List.rotate]

/-- Every standard edge record comes from one of the input vertex pairs,
with normal `(dy, -dx)/len` and the pair midpoint. -/
theorem mem_mkStdEdges {sid : ℕ} :
    ∀ {i : ℕ} {pairs : List (Point × Point)} {e : Edge}, e ∈ mkStdEdges sid i pairs →
    ∃ p ∈ pairs,
      e.nx = (p.2.y - p.1.y) /
          Real.sqrt ((p.2.x - p.1.x) * (p.2.x - p.1.x) + (p.2.y - p.1.y) * (p.2.y - p.1.y)) ∧
      e.ny = -((p.2.x - p.1.x) /
          Real.sqrt ((p.2.x - p.1.x) * (p.2.x - p.1.x) + (p.2.y - p.1.y) * (p.2.y - p.1.y))) ∧
      e.midX = (p.1.x + p.2.x) / 2 ∧ e.midY = (p.1.y + p.2.y) / 2 := by
  intro i pairs
  induction pairs generalizing i with
  | nil => intro e he; cases he
  | cons hd tl ih =>
    obtain ⟨v1, v2⟩ := hd
    intro e he
    simp only [mkStdEdges] at he
    by_cases h : Real.sqrt ((v2.x - v1.x) * (v2.x - v1.x) + (v2.y - v1.y) * (v2.y - v1.y)) < 0.001
    · rw [if_pos h] at he
      obtain ⟨p, hp, hrest⟩ := ih he
      exact ⟨p, List.mem_cons_of_mem _ hp, hrest⟩
    · rw [if_neg h] at he
      rcases List.mem_cons.mp he with rfl | he
      · exact ⟨(v1, v2), List.mem_cons_self _ _, rfl, rfl, rfl, rfl⟩
      · obtain ⟨p, hp, hrest⟩ := ih he
        exact ⟨p, List.mem_cons_of_mem _ hp, hrest⟩

theorem std_normal_dot_nonpos (cx cy dxv dyv mxv myv A : ℝ)
    (hnum : dyv * (cx - mxv) - dxv * (cy - myv) ≤ 0) :
    dyv / Real.sqrt A * (cx - mxv) + -(dxv / Real.sqrt A) * (cy - myv) ≤ 0 := by
  have h : dyv / Real.sqrt A * (cx - mxv) + -(dxv / Real.sqrt A) * (cy - myv) =
      (dyv * (cx - mxv) - dxv * (cy - myv)) / Real.sqrt A := by ring
  rw [h]
  exact div_nonpos_iff.mpr (Or.inr ⟨hnum, Real.sqrt_nonneg A⟩)

@[simp] theorem point_x_mk (a b : ℝ) : (Point.mk a b).x = a := rfl

@[simp] theorem point_y_mk (a b : ℝ) : (Point.mk a b).y = b := rfl

theorem getVerticesAt_square_eval (x y θ : ℝ) :
    getVerticesAt .square x y θ =
      [⟨x - 25 * Real.cos (θ * π / 180) + 25 * Real.sin (θ * π / 180),
          y - 25 * Real.sin (θ * π / 180) - 25 * Real.cos (θ * π / 180)⟩,
        ⟨x + 25 * Real.cos (θ * π / 180) + 25 * Real.sin (θ * π / 180),
          y + 25 * Real.sin (θ * π / 180) - 25 * Real.cos (θ * π / 180)⟩,
        ⟨x + 25 * Real.cos (θ * π / 180) - 25 * Real.sin (θ * π / 180),
          y + 25 * Real.sin (θ * π / 180) + 25 * Real.cos (θ * π / 180)⟩,
        ⟨x - 25 * Real.cos (θ * π / 180) - 25 * Real.sin (θ * π / 180),
          y - 25 * Real.sin (θ * π / 180) + 25 * Real.cos (θ * π / 180)⟩] := by
  simp only [getVerticesAt, localVerts, SHAPE_SIZE, List.map_cons, List.map_nil,
    List.cons.injEq, Point.mk.injEq, and_true]
  norm_num
  and_intros <;> ring

theorem getVerticesAt_stair_eval (x y θ : ℝ) :
    getVerticesAt .stair x y θ = getVerticesAt .square x y θ := rfl

theorem getVerticesAt_corner_eval (x y θ : ℝ) :
    getVerticesAt .corner x y θ =
      [⟨x - 25 * Real.cos (θ * π / 180) + 25 * Real.sin (θ * π / 180),
          y - 25 * Real.sin (θ * π / 180) - 25 * Real.cos (θ * π / 180)⟩,
        ⟨x + 25 * Real.cos (θ * π / 180) + 25 * Real.sin (θ * π / 180),
          y + 25 * Real.sin (θ * π / 180) - 25 * Real.cos (θ * π / 180)⟩,
        ⟨x - 25 * Real.cos (θ * π / 180) - 25 * Real.sin (θ * π / 180),
          y - 25 * Real.sin (θ * π / 180) + 25 * Real.cos (θ * π / 180)⟩] := by
  simp only [getVerticesAt, localVerts, SHAPE_SIZE, List.map_cons, List.map_nil,
    List.cons.injEq, Point.mk.injEq, and_true]
  norm_num
  and_intros <;> ring

theorem getVerticesAt_triangle_eval (x y θ : ℝ) :
    getVerticesAt .triangle x y θ =
      [⟨x + TRI_HEIGHT * 2 / 3 * Real.sin (θ * π / 180),
          y - TRI_HEIGHT * 2 / 3 * Real.cos (θ * π / 180)⟩,
        ⟨x + 25 * Real.cos (θ * π / 180) - TRI_HEIGHT / 3 * Real.sin (θ * π / 180),
          y + 25 * Real.sin (θ * π / 180) + TRI_HEIGHT / 3 * Real.cos (θ * π / 180)⟩,
        ⟨x - 25 * Real.cos (θ * π / 180) - TRI_HEIGHT / 3 * Real.sin (θ * π / 180),
          y - 25 * Real.sin (θ * π / 180) + TRI_HEIGHT / 3 * Real.cos (θ * π / 180)⟩] := by
  simp only [getVerticesAt, localVerts, SHAPE_SIZE, List.map_cons, List.map_nil,
    List.cons.injEq, Point.mk.injEq, and_true]
  norm_num
  and_intros <;> ring

theorem getShapeEdges_eval_square (x y θ : ℝ) (id : ℕ) (b : Building) :
    getShapeEdges (mkPoseShape .square x y θ id b) =
      mkStdEdges id 0 (cyclicPairs (getVerticesAt .square x y θ)) := by
  simp [getShapeEdges, mkPoseShape, shapeVerts, getVertices]

theorem getShapeEdges_eval_stair (x y θ : ℝ) (id : ℕ) (b : Building) :
    getShapeEdges (mkPoseShape .stair x y θ id b) =
      mkStdEdges id 0 (cyclicPairs (getVerticesAt .stair x y θ)) := by
  simp [getShapeEdges, mkPoseShape, shapeVerts, getVertices]

theorem getShapeEdges_eval_triangle (x y θ : ℝ) (id : ℕ) (b : Building) :
    getShapeEdges (mkPoseShape .triangle x y θ id b) =
      mkStdEdges id 0 (cyclicPairs (getVerticesAt .triangle x y θ)) := by
  simp [getShapeEdges, mkPoseShape, shapeVerts, getVertices]

/-- The dot-product bound for corner edge A, given that the flip test
numerator is nonpositive (no flip) and the unflipped normal numerator is
nonpositive. -/
theorem cornerEdgeA_dot {sid : ℕ} {cv e1 e2 : Point} {e : Edge}
    (he : e ∈ cornerEdgeA sid cv e1 e2) (cx cy : ℝ)
    (hnoflip : (e1.y - cv.y) * (e2.x - (cv.x + e1.x) / 2) -
        (e1.x - cv.x) * (e2.y - (cv.y + e1.y) / 2) ≤ 0)
    (hnum : (e1.y - cv.y) * (cx - (cv.x + e1.x) / 2) -
        (e1.x - cv.x) * (cy - (cv.y + e1.y) / 2) ≤ 0) :
    e.nx * (cx - e.midX) + e.ny * (cy - e.midY) ≤ 0 := by
  simp only [cornerEdgeA] at he
  by_cases hl : Real.sqrt ((e1.x - cv.x) * (e1.x - cv.x) + (e1.y - cv.y) * (e1.y - cv.y)) > 0.001
  · rw [if_pos hl] at he
    rw [List.mem_singleton.mp he]
    have hflip : ¬((e1.y - cv.y) /
          Real.sqrt ((e1.x - cv.x) * (e1.x - cv.x) + (e1.y - cv.y) * (e1.y - cv.y)) *
          (e2.x - (cv.x + e1.x) / 2) +
        -((e1.x - cv.x) /
            Real.sqrt ((e1.x - cv.x) * (e1.x - cv.x) + (e1.y - cv.y) * (e1.y - cv.y))) *
          (e2.y - (cv.y + e1.y) / 2) > 0) := by
      push_neg
      exact std_normal_dot_nonpos _ _ _ _ _ _ _ hnoflip
    simp only [hflip, if_neg, if_false]
    exact std_normal_dot_nonpos _ _ _ _ _ _ _ hnum
  · rw [if_neg hl] at he
    cases he

/-- The dot-product bound for corner edge B, analogous to
`cornerEdgeA_dot`. -/
theorem cornerEdgeB_dot {sid : ℕ} {cv e1 e2 : Point} {e : Edge}
    (he : e ∈ cornerEdgeB sid cv e1 e2) (cx cy : ℝ)
    (hnoflip : (cv.y - e2.y) * (e1.x - (e2.x + cv.x) / 2) -
        (cv.x - e2.x) * (e1.y - (e2.y + cv.y) / 2) ≤ 0)
    (hnum : (cv.y - e2.y) * (cx - (e2.x + cv.x) / 2) -
        (cv.x - e2.x) * (cy - (e2.y + cv.y) / 2) ≤ 0) :
    e.nx * (cx - e.midX) + e.ny * (cy - e.midY) ≤ 0 := by
  simp only [cornerEdgeB] at he
  by_cases hl : Real.sqrt ((cv.x - e2.x) * (cv.x - e2.x) + (cv.y - e2.y) * (cv.y - e2.y)) > 0.001
  · rw [if_pos hl] at he
    rw [List.mem_singleton.mp he]
    have hflip : ¬((cv.y - e2.y) /
          Real.sqrt ((cv.x - e2.x) * (cv.x - e2.x) + (cv.y - e2.y) * (cv.y - e2.y)) *
          (e1.x - (e2.x + cv.x) / 2) +
        -((cv.x - e2.x) /
            Real.sqrt ((cv.x - e2.x) * (cv.x - e2.x) + (cv.y - e2.y) * (cv.y - e2.y))) *
          (e1.y - (e2.y + cv.y) / 2) > 0) := by
      push_neg
      exact std_normal_dot_nonpos _ _ _ _ _ _ _ hnoflip
    simp only [hflip, if_neg, if_false]
    exact std_normal_dot_nonpos _ _ _ _ _ _ _ hnum
  · rw [if_neg hl] at he
    cases he

set_option maxHeartbeats 1600000 in
/-- **C5**.  For every kind and every pose, every edge record produced
by `getShapeEdges` on the freshly generated vertices satisfies
`normal · (centroid - midpoint) ≤ 0`, where the centroid is the
arithmetic mean of the shape's vertices — the outward-normal invariant,
including the flip-tested corner leg normals. -/
theorem C5_outward_normals (t : ShapeType) (x y θ : ℝ) (id : ℕ) (b : Building) :
    ∀ e ∈ getShapeEdges (mkPoseShape t x y θ id b),
      e.nx * (centroidX (shapeVerts (mkPoseShape t x y θ id b)) - e.midX) +
        e.ny * (centroidY (shapeVerts (mkPoseShape t x y θ id b)) - e.midY) ≤ 0 := by
  intro e he
  have hpy := Real.sin_sq_add_cos_sq (θ * π / 180)
  have hverts : shapeVerts (mkPoseShape t x y θ id b) = getVerticesAt t x y θ := rfl
  rw [hverts]
  cases t with
  | square =>
    rw [(centroid_square x y θ).1, (centroid_square x y θ).2]
    rw [getShapeEdges_eval_square, getVerticesAt_square_eval, cyclicPairs_four] at he
    obtain ⟨p, hp, hnx, hny, hmx, hmy⟩ := mem_mkStdEdges he
    rw [hnx, hny, hmx, hmy]
    simp only [List.mem_cons, List.not_mem_nil, or_false] at hp
    rcases hp with rfl | rfl | rfl | rfl
    all_goals
      dsimp only
      apply std_normal_dot_nonpos
      nlinarith [hpy]
  | stair =>
    rw [(centroid_stair x y θ).1, (centroid_stair x y θ).2]
    rw [getShapeEdges_eval_stair, getVerticesAt_stair_eval, getVerticesAt_square_eval,
      cyclicPairs_four] at he
    obtain ⟨p, hp, hnx, hny, hmx, hmy⟩ := mem_mkStdEdges he
    rw [hnx, hny, hmx, hmy]
    simp only [List.mem_cons, List.not_mem_nil, or_false] at hp
    rcases hp with rfl | rfl | rfl | rfl
    all_goals
      dsimp only
      apply std_normal_dot_nonpos
      nlinarith [hpy]
  | triangle =>
    rw [(centroid_triangle x y θ).1, (centroid_triangle x y θ).2]
    rw [getShapeEdges_eval_triangle, getVerticesAt_triangle_eval, cyclicPairs_three] at he
    obtain ⟨p, hp, hnx, hny, hmx, hmy⟩ := mem_mkStdEdges he
    rw [hnx, hny, hmx, hmy]
    have hH : (0 : ℝ) ≤ TRI_HEIGHT := by
      unfold TRI_HEIGHT SHAPE_SIZE; positivity
    simp only [List.mem_cons, List.not_mem_nil, or_false] at hp
    rcases hp with rfl | rfl | rfl
    all_goals
      dsimp only
      apply std_normal_dot_nonpos
      nlinarith [hpy, hH, sq_nonneg (Real.sin (θ * π / 180)),
        sq_nonneg (Real.cos (θ * π / 180))]
  | corner =>
    rw [(centroid_corner x y θ).1, (centroid_corner x y θ).2]
    have hedges : getShapeEdges (mkPoseShape .corner x y θ id b) =
        cornerEdgeA id
            ⟨x - 25 * Real.cos (θ * π / 180) + 25 * Real.sin (θ * π / 180),
              y - 25 * Real.sin (θ * π / 180) - 25 * Real.cos (θ * π / 180)⟩
            ⟨x + 25 * Real.cos (θ * π / 180) + 25 * Real.sin (θ * π / 180),
              y + 25 * Real.sin (θ * π / 180) - 25 * Real.cos (θ * π / 180)⟩
            ⟨x - 25 * Real.cos (θ * π / 180) - 25 * Real.sin (θ * π / 180),
              y - 25 * Real.sin (θ * π / 180) + 25 * Real.cos (θ * π / 180)⟩ ++
          cornerEdgeB id
            ⟨x - 25 * Real.cos (θ * π / 180) + 25 * Real.sin (θ * π / 180),
              y - 25 * Real.sin (θ * π / 180) - 25 * Real.cos (θ * π / 180)⟩
            ⟨x + 25 * Real.cos (θ * π / 180) + 25 * Real.sin (θ * π / 180),
              y + 25 * Real.sin (θ * π / 180) - 25 * Real.cos (θ * π / 180)⟩
            ⟨x - 25 * Real.cos (θ * π / 180) - 25 * Real.sin (θ * π / 180),
              y - 25 * Real.sin (θ * π / 180) + 25 * Real.cos (θ * π / 180)⟩ := by
      simp [getShapeEdges, mkPoseShape, shapeVerts, getVertices, getVerticesAt_corner_eval]
    rw [hedges] at he
    rcases List.mem_append.mp he with hA | hB
    · apply cornerEdgeA_dot hA
      · simp only [point_x_mk, point_y_mk]
        nlinarith [hpy]
      · simp only [point_x_mk, point_y_mk]
        nlinarith [hpy]
    · apply cornerEdgeB_dot hB
      · simp only [point_x_mk, point_y_mk]
        nlinarith [hpy]
      · simp only [point_x_mk, point_y_mk]
        nlinarith [hpy]

theorem sqrt_2500 : Real.sqrt 2500 = 50 := by
  rw [show (2500 : ℝ) = 50 ^ 2 by norm_num]
  exact Real.sqrt_sq (by norm_num)

/-- Concrete evaluation of the standard edges of the axis-aligned
origin square `[(-25,-25),(25,-25),(25,25),(-25,25)]`. -/
theorem mkStdEdges_originSquareList :
    mkStdEdges 0 0 (cyclicPairs [⟨-25, -25⟩, ⟨25, -25⟩, ⟨25, 25⟩, ⟨-25, 25⟩]) =
      [⟨⟨-25, -25⟩, ⟨25, -25⟩, 0, -25, 1, 0, 0, -1, 50, 0, 0⟩,
        ⟨⟨25, -25⟩, ⟨25, 25⟩, 25, 0, 0, 1, 1, 0, 50, 0, 1⟩,
        ⟨⟨25, 25⟩, ⟨-25, 25⟩, 0, 25, -1, 0, 0, 1, 50, 0, 2⟩,
        ⟨⟨-25, 25⟩, ⟨-25, -25⟩, -25, 0, 0, -1, -1, 0, 50, 0, 3⟩] := by
  rw [cyclicPairs_four]
  have h1 : Real.sqrt ((25 - -25) * (25 - -25) + (-25 - -25) * (-25 - -25)) = 50 := by
    norm_num [sqrt_2500]
  have h2 : Real.sqrt ((25 - 25) * (25 - 25) + (25 - -25) * (25 - -25)) = 50 := by
    norm_num [sqrt_2500]
  have h3 : Real.sqrt ((-25 - 25) * (-25 - 25) + (25 - 25) * (25 - 25)) = 50 := by
    norm_num [sqrt_2500]
  have h4 : Real.sqrt ((-25 - -25) * (-25 - -25) + (-25 - 25) * (-25 - 25)) = 50 := by
    norm_num [sqrt_2500]
  simp only [mkStdEdges, point_x_mk, point_y_mk, h1, h2, h3, h4]
  norm_num [Edge.mk.injEq, Point.mk.injEq]

/-- **C5** (witness): the bottom edge of an axis-aligned square at the
origin is a produced edge record and satisfies the outward-normal
inequality. -/
theorem C5_witness :
    (⟨⟨-25, -25⟩, ⟨25, -25⟩, 0, -25, 1, 0, 0, -1, 50, 0, 0⟩ : Edge) ∈
        getShapeEdges (mkPoseShape .square 0 0 0 0 .atreides) ∧
      (⟨⟨-25, -25⟩, ⟨25, -25⟩, 0, -25, 1, 0, 0, -1, 50, 0, 0⟩ : Edge).nx *
            (centroidX (shapeVerts (mkPoseShape .square 0 0 0 0 .atreides)) -
              (⟨⟨-25, -25⟩, ⟨25, -25⟩, 0, -25, 1, 0, 0, -1, 50, 0, 0⟩ : Edge).midX) +
          (⟨⟨-25, -25⟩, ⟨25, -25⟩, 0, -25, 1, 0, 0, -1, 50, 0, 0⟩ : Edge).ny *
            (centroidY (shapeVerts (mkPoseShape .square 0 0 0 0 .atreides)) -
              (⟨⟨-25, -25⟩, ⟨25, -25⟩, 0, -25, 1, 0, 0, -1, 50, 0, 0⟩ : Edge).midY) ≤ 0 := by
  have hmem : (⟨⟨-25, -25⟩, ⟨25, -25⟩, 0, -25, 1, 0, 0, -1, 50, 0, 0⟩ : Edge) ∈
      getShapeEdges (mkPoseShape .square 0 0 0 0 .atreides) := by
    rw [getShapeEdges_eval_square, getVerticesAt_square_origin, mkStdEdges_originSquareList]
    exact List.mem_cons_self _ _
  exact ⟨hmem, C5_outward_normals .square 0 0 0 0 .atreides _ hmem⟩

theorem not_strictlyIn_of_near {px py : ℝ} {verts : List Point} {v1 v2 : Point}
    (hmem : (v1, v2) ∈ cyclicPairs verts) (hnear : onEdgeNear px py v1 v2) :
    ¬ pointStrictlyInPolygon px py verts :=
  fun h => (h.1 (v1, v2) hmem) hnear

theorem not_strictlyIn_of_ray {px py : ℝ} {verts : List Point}
    (hray : ¬ rayInside px py verts) : ¬ pointStrictlyInPolygon px py verts :=
  fun h => hray h.2

theorem newCollisionVertsOf_square (vs : List Point) (style : CornerStyle) :
    newCollisionVertsOf vs .square style = vs := by
  simp [newCollisionVertsOf]

theorem getCollisionVertices_originSquare :
    getCollisionVertices originSquare = [⟨-25, -25⟩, ⟨25, -25⟩, ⟨25, 25⟩, ⟨-25, 25⟩] := by
  simp [getCollisionVertices, originSquare, shapeVerts]

theorem shapeVerts_originSquare :
    shapeVerts originSquare = [⟨-25, -25⟩, ⟨25, -25⟩, ⟨25, 25⟩, ⟨-25, 25⟩] := rfl

theorem no_overlap_50 : ¬ checkOverlap false True .atreides [originSquare]
    [⟨25, -25⟩, ⟨75, -25⟩, ⟨75, 25⟩, ⟨25, 25⟩] .square := by
  intro h
  simp only [checkOverlap, overlapWithShape, newCollisionVertsOf_square,
    getCollisionVertices_originSquare, shapeVerts_originSquare, List.mem_singleton,
    Bool.false_eq_true, false_and, false_or, exists_eq_left] at h
  rcases h with hdup | hcontA | hcontB | hcross
  · norm_num [centroidX, centroidY] at hdup
  · obtain ⟨v, hv, hP⟩ := hcontA
    simp only [List.mem_cons, List.not_mem_nil, or_false] at hv
    rcases hv with rfl | rfl | rfl | rfl
    · refine @not_strictlyIn_of_near _ _ _ ⟨25, -25⟩ ⟨25, 25⟩ ?_ ?_ hP
      · rw [cyclicPairs_four]; simp
      · simp only [onEdgeNear, point_x_mk, point_y_mk, EDGE_TOLERANCE, hypot_lt_two]
        norm_num
    · refine not_strictlyIn_of_ray ?_ hP
      simp only [rayInside, jPairs_four, List.foldl, rayCrossProp, Xor',
        point_x_mk, point_y_mk]
      norm_num
    · refine not_strictlyIn_of_ray ?_ hP
      simp only [rayInside, jPairs_four, List.foldl, rayCrossProp, Xor',
        point_x_mk, point_y_mk]
      norm_num
    · refine @not_strictlyIn_of_near _ _ _ ⟨25, -25⟩ ⟨25, 25⟩ ?_ ?_ hP
      · rw [cyclicPairs_four]; simp
      · simp only [onEdgeNear, point_x_mk, point_y_mk, EDGE_TOLERANCE, hypot_lt_two]
        norm_num
  · obtain ⟨v, hv, hP⟩ := hcontB
    simp only [List.mem_cons, List.not_mem_nil, or_false] at hv
    rcases hv with rfl | rfl | rfl | rfl
    · refine not_strictlyIn_of_ray ?_ hP
      simp only [rayInside, jPairs_four, List.foldl, rayCrossProp, Xor',
        point_x_mk, point_y_mk]
      norm_num
    · refine @not_strictlyIn_of_near _ _ _ ⟨25, 25⟩ ⟨25, -25⟩ ?_ ?_ hP
      · rw [cyclicPairs_four]; simp
      · simp only [onEdgeNear, point_x_mk, point_y_mk, EDGE_TOLERANCE, hypot_lt_two]
        norm_num
    · refine @not_strictlyIn_of_near _ _ _ ⟨25, 25⟩ ⟨25, -25⟩ ?_ ?_ hP
      · rw [cyclicPairs_four]; simp
      · simp only [onEdgeNear, point_x_mk, point_y_mk, EDGE_TOLERANCE, hypot_lt_two]
        norm_num
    · refine not_strictlyIn_of_ray ?_ hP
      simp only [rayInside, jPairs_four, List.foldl, rayCrossProp, Xor',
        point_x_mk, point_y_mk]
      norm_num
  · obtain ⟨pa, hpa, pb, hpb, hseg⟩ := hcross
    rw [cyclicPairs_four] at hpa hpb
    simp only [List.mem_cons, List.not_mem_nil, or_false] at hpa hpb
    rcases hpa with rfl | rfl | rfl | rfl <;> rcases hpb with rfl | rfl | rfl | rfl <;>
      · simp only [segmentsIntersect, cross, point_x_mk, point_y_mk] at hseg
        norm_num at hseg

theorem no_overlap_49 : ¬ checkOverlap false True .atreides [originSquare]
    [⟨24, -25⟩, ⟨74, -25⟩, ⟨74, 25⟩, ⟨24, 25⟩] .square := by
  intro h
  simp only [checkOverlap, overlapWithShape, newCollisionVertsOf_square,
    getCollisionVertices_originSquare, shapeVerts_originSquare, List.mem_singleton,
    Bool.false_eq_true, false_and, false_or, exists_eq_left] at h
  rcases h with hdup | hcontA | hcontB | hcross
  · norm_num [centroidX, centroidY] at hdup
  · obtain ⟨v, hv, hP⟩ := hcontA
    simp only [List.mem_cons, List.not_mem_nil, or_false] at hv
    rcases hv with rfl | rfl | rfl | rfl
    · refine @not_strictlyIn_of_near _ _ _ ⟨25, -25⟩ ⟨25, 25⟩ ?_ ?_ hP
      · rw [cyclicPairs_four]; simp
      · simp only [onEdgeNear, point_x_mk, point_y_mk, EDGE_TOLERANCE, hypot_lt_two]
        norm_num
    · refine not_strictlyIn_of_ray ?_ hP
      simp only [rayInside, jPairs_four, List.foldl, rayCrossProp, Xor',
        point_x_mk, point_y_mk]
      norm_num
    · refine not_strictlyIn_of_ray ?_ hP
      simp only [rayInside, jPairs_four, List.foldl, rayCrossProp, Xor',
        point_x_mk, point_y_mk]
      norm_num
    · refine @not_strictlyIn_of_near _ _ _ ⟨25, -25⟩ ⟨25, 25⟩ ?_ ?_ hP
      · rw [cyclicPairs_four]; simp
      · simp only [onEdgeNear, point_x_mk, point_y_mk, EDGE_TOLERANCE, hypot_lt_two]
        norm_num
  · obtain ⟨v, hv, hP⟩ := hcontB
    simp only [List.mem_cons, List.not_mem_nil, or_false] at hv
    rcases hv with rfl | rfl | rfl | rfl
    · refine not_strictlyIn_of_ray ?_ hP
      simp only [rayInside, jPairs_four, List.foldl, rayCrossProp, Xor',
        point_x_mk, point_y_mk]
      norm_num
    · refine @not_strictlyIn_of_near _ _ _ ⟨24, 25⟩ ⟨24, -25⟩ ?_ ?_ hP
      · rw [cyclicPairs_four]; simp
      · simp only [onEdgeNear, point_x_mk, point_y_mk, EDGE_TOLERANCE, hypot_lt_two]
        norm_num
    · refine @not_strictlyIn_of_near _ _ _ ⟨24, 25⟩ ⟨24, -25⟩ ?_ ?_ hP
      · rw [cyclicPairs_four]; simp
      · simp only [onEdgeNear, point_x_mk, point_y_mk, EDGE_TOLERANCE, hypot_lt_two]
        norm_num
    · refine not_strictlyIn_of_ray ?_ hP
      simp only [rayInside, jPairs_four, List.foldl, rayCrossProp, Xor',
        point_x_mk, point_y_mk]
      norm_num
  · obtain ⟨pa, hpa, pb, hpb, hseg⟩ := hcross
    rw [cyclicPairs_four] at hpa hpb
    simp only [List.mem_cons, List.not_mem_nil, or_false] at hpa hpb
    rcases hpa with rfl | rfl | rfl | rfl <;> rcases hpb with rfl | rfl | rfl | rfl <;>
      · simp only [segmentsIntersect, cross, point_x_mk, point_y_mk] at hseg
        norm_num at hseg

theorem no_overlap_snapped : ¬ checkOverlap false True .atreides [originSquare]
    [⟨25, 25⟩, ⟨25, -25⟩, ⟨75, -25⟩, ⟨75, 25⟩] .square := by
  intro h
  simp only [checkOverlap, overlapWithShape, newCollisionVertsOf_square,
    getCollisionVertices_originSquare, shapeVerts_originSquare, List.mem_singleton,
    Bool.false_eq_true, false_and, false_or, exists_eq_left] at h
  rcases h with hdup | hcontA | hcontB | hcross
  · norm_num [centroidX, centroidY] at hdup
  · obtain ⟨v, hv, hP⟩ := hcontA
    simp only [List.mem_cons, List.not_mem_nil, or_false] at hv
    rcases hv with rfl | rfl | rfl | rfl
    · refine @not_strictlyIn_of_near _ _ _ ⟨25, -25⟩ ⟨25, 25⟩ ?_ ?_ hP
      · rw [cyclicPairs_four]; simp
      · simp only [onEdgeNear, point_x_mk, point_y_mk, EDGE_TOLERANCE, hypot_lt_two]
        norm_num
    · refine @not_strictlyIn_of_near _ _ _ ⟨25, -25⟩ ⟨25, 25⟩ ?_ ?_ hP
      · rw [cyclicPairs_four]; simp
      · simp only [onEdgeNear, point_x_mk, point_y_mk, EDGE_TOLERANCE, hypot_lt_two]
        norm_num
    · refine not_strictlyIn_of_ray ?_ hP
      simp only [rayInside, jPairs_four, List.foldl, rayCrossProp, Xor',
        point_x_mk, point_y_mk]
      norm_num
    · refine not_strictlyIn_of_ray ?_ hP
      simp only [rayInside, jPairs_four, List.foldl, rayCrossProp, Xor',
        point_x_mk, point_y_mk]
      norm_num
  · obtain ⟨v, hv, hP⟩ := hcontB
    simp only [List.mem_cons, List.not_mem_nil, or_false] at hv
    rcases hv with rfl | rfl | rfl | rfl
    · refine not_strictlyIn_of_ray ?_ hP
      simp only [rayInside, jPairs_four, List.foldl, rayCrossProp, Xor',
        point_x_mk, point_y_mk]
      norm_num
    · refine @not_strictlyIn_of_near _ _ _ ⟨25, 25⟩ ⟨25, -25⟩ ?_ ?_ hP
      · rw [cyclicPairs_four]; simp
      · simp only [onEdgeNear, point_x_mk, point_y_mk, EDGE_TOLERANCE, hypot_lt_two]
        norm_num
    · refine @not_strictlyIn_of_near _ _ _ ⟨25, 25⟩ ⟨25, -25⟩ ?_ ?_ hP
      · rw [cyclicPairs_four]; simp
      · simp only [onEdgeNear, point_x_mk, point_y_mk, EDGE_TOLERANCE, hypot_lt_two]
        norm_num
    · refine not_strictlyIn_of_ray ?_ hP
      simp only [rayInside, jPairs_four, List.foldl, rayCrossProp, Xor',
        point_x_mk, point_y_mk]
      norm_num
  · obtain ⟨pa, hpa, pb, hpb, hseg⟩ := hcross
    rw [cyclicPairs_four] at hpa hpb
    simp only [List.mem_cons, List.not_mem_nil, or_false] at hpa hpb
    rcases hpa with rfl | rfl | rfl | rfl <;> rcases hpb with rfl | rfl | rfl | rfl <;>
      · simp only [segmentsIntersect, cross, point_x_mk, point_y_mk] at hseg
        norm_num at hseg

theorem getFreeVertices_50 :
    getFreeVertices 50 0 .square = [⟨25, -25⟩, ⟨75, -25⟩, ⟨75, 25⟩, ⟨25, 25⟩] := by
  simp only [getFreeVertices, SHAPE_SIZE]
  norm_num [Point.mk.injEq]

theorem getFreeVertices_49 :
    getFreeVertices 49 0 .square = [⟨24, -25⟩, ⟨74, -25⟩, ⟨74, 25⟩, ⟨24, 25⟩] := by
  simp only [getFreeVertices, SHAPE_SIZE]
  norm_num [Point.mk.injEq]

theorem getFreeVertices_origin :
    getFreeVertices 0 0 .square = [⟨-25, -25⟩, ⟨25, -25⟩, ⟨25, 25⟩, ⟨-25, 25⟩] := by
  simp only [getFreeVertices, SHAPE_SIZE]
  norm_num [Point.mk.injEq]

/-- **C2** (counterexample).  Against a single axis-aligned Square of
side 50 at the origin, a candidate axis-aligned Square with centroid 49
units away along X is *not* reported as overlapping by `checkOverlap`:
the 1-unit penetration leaves every vertex within the
`EDGE_TOLERANCE = 2` on-edge dead zone, and all edge intersections are
endpoint-touching or collinear, hence not "proper" crossings. -/
theorem C2_counterexample :
    ¬ checkOverlap false True .atreides [originSquare] (getFreeVertices 49 0 .square)
      .square := by
  rw [getFreeVertices_49]
  exact no_overlap_49

/-- **C2** (amended).  Flush contact at 50 units is not flagged as
overlap — and neither is the 49-unit position: for equal axis-aligned
squares sliding along X, `checkOverlap` reports no overlap at either
distance. -/
theorem C2_squares_overlap_amended :
    ¬ checkOverlap false True .atreides [originSquare] (getFreeVertices 50 0 .square)
        .square ∧
      ¬ checkOverlap false True .atreides [originSquare] (getFreeVertices 49 0 .square)
        .square := by
  constructor
  · rw [getFreeVertices_50]
    exact no_overlap_50
  · rw [getFreeVertices_49]
    exact no_overlap_49

theorem atan2_neg50_zero : atan2 (-50) 0 = -(π / 2) := by
  unfold atan2
  exact Complex.arg_eq_neg_pi_div_two_iff.mpr ⟨rfl, by norm_num⟩

theorem getShapeEdges_originSquare :
    getShapeEdges originSquare =
      [⟨⟨-25, -25⟩, ⟨25, -25⟩, 0, -25, 1, 0, 0, -1, 50, 0, 0⟩,
        ⟨⟨25, -25⟩, ⟨25, 25⟩, 25, 0, 0, 1, 1, 0, 50, 0, 1⟩,
        ⟨⟨25, 25⟩, ⟨-25, 25⟩, 0, 25, -1, 0, 0, 1, 50, 0, 2⟩,
        ⟨⟨-25, 25⟩, ⟨-25, -25⟩, -25, 0, 0, -1, -1, 0, 50, 0, 3⟩] := by
  have h : getShapeEdges originSquare =
      mkStdEdges 0 0 (cyclicPairs [⟨-25, -25⟩, ⟨25, -25⟩, ⟨25, 25⟩, ⟨-25, 25⟩]) := by
    simp [getShapeEdges, originSquare, shapeVerts]
  rw [h, mkStdEdges_originSquareList]

theorem calcSnapped_eval :
    calculateSnappedVertices ⟨⟨25, -25⟩, ⟨25, 25⟩, 25, 0, 0, 1, 1, 0, 50, 0, 1⟩
        .square none none = [⟨25, 25⟩, ⟨25, -25⟩, ⟨75, -25⟩, ⟨75, 25⟩] := by
  simp only [calculateSnappedVertices, SHAPE_SIZE]
  norm_num [Point.mk.injEq]

theorem C3_snapped_pose :
    (verticesToShape [⟨25, 25⟩, ⟨25, -25⟩, ⟨75, -25⟩, ⟨75, 25⟩] .square 1 .atreides).x = 50 ∧
      (verticesToShape [⟨25, 25⟩, ⟨25, -25⟩, ⟨75, -25⟩, ⟨75, 25⟩] .square 1 .atreides).y = 0 ∧
      (verticesToShape [⟨25, 25⟩, ⟨25, -25⟩, ⟨75, -25⟩, ⟨75, 25⟩] .square 1 .atreides).rotation
        = 90 := by
  simp only [verticesToShape, rotationFromVerts]
  refine ⟨?_, ?_, ?_⟩
  · norm_num [centroidX]
  · norm_num [centroidY]
  · norm_num [point_x_mk, point_y_mk]
    rw [atan2_neg50_zero]
    field_simp
    ring

/-- **C3** (amended).  The §8 scenario on the code: a Square at the
origin with rotation 0 generates the vertex list
`[(-25,-25),(25,-25),(25,25),(-25,25)]` (both as free-placement
vertices and as `getVertices` output); edge-snapping a second Square
against the first's right edge yields vertices
`[(25,25),(25,-25),(75,-25),(75,25)]`, a shape with centroid `(50,0)`
and *recovered rotation 90* (not the first Square's rotation), and the
overlap detector reports no overlap. -/
theorem C3_snap_scenario_amended :
    getFreeVertices 0 0 .square = [⟨-25, -25⟩, ⟨25, -25⟩, ⟨25, 25⟩, ⟨-25, 25⟩] ∧
    getVerticesAt .square 0 0 0 = [⟨-25, -25⟩, ⟨25, -25⟩, ⟨25, 25⟩, ⟨-25, 25⟩] ∧
    (⟨⟨25, -25⟩, ⟨25, 25⟩, 25, 0, 0, 1, 1, 0, 50, 0, 1⟩ : Edge) ∈
      getShapeEdges originSquare ∧
    calculateSnappedVertices ⟨⟨25, -25⟩, ⟨25, 25⟩, 25, 0, 0, 1, 1, 0, 50, 0, 1⟩
      .square none none = [⟨25, 25⟩, ⟨25, -25⟩, ⟨75, -25⟩, ⟨75, 25⟩] ∧
    (verticesToShape [⟨25, 25⟩, ⟨25, -25⟩, ⟨75, -25⟩, ⟨75, 25⟩] .square 1 .atreides).x = 50 ∧
    (verticesToShape [⟨25, 25⟩, ⟨25, -25⟩, ⟨75, -25⟩, ⟨75, 25⟩] .square 1 .atreides).y = 0 ∧
    (verticesToShape [⟨25, 25⟩, ⟨25, -25⟩, ⟨75, -25⟩, ⟨75, 25⟩] .square 1 .atreides).rotation
      = 90 ∧
    ¬ checkOverlap false True .atreides [originSquare]
      [⟨25, 25⟩, ⟨25, -25⟩, ⟨75, -25⟩, ⟨75, 25⟩] .square := by
  refine ⟨getFreeVertices_origin, getVerticesAt_square_origin, ?_, calcSnapped_eval,
    C3_snapped_pose.1, C3_snapped_pose.2.1, C3_snapped_pose.2.2, no_overlap_snapped⟩
  rw [getShapeEdges_originSquare]
  simp

/-- **C3** (counterexample).  The snapped second Square's recovered
rotation (90) does not equal the first Square's rotation (0): the
claim's "recovered rotation equals the first Square's rotation" fails
on the code. -/
theorem C3_counterexample :
    (verticesToShape [⟨25, 25⟩, ⟨25, -25⟩, ⟨75, -25⟩, ⟨75, 25⟩] .square 1 .atreides).rotation
      ≠ originSquare.rotation := by
  rw [C3_snapped_pose.2.2, show originSquare.rotation = 0 from rfl]
  norm_num

theorem hypot_comm_sub (a b c d : ℝ) : hypot (a - b) (c - d) = hypot (b - a) (d - c) := by
  unfold hypot
  rw [show (a - b) ^ 2 = (b - a) ^ 2 by ring, show (c - d) ^ 2 = (d - c) ^ 2 by ring]

theorem shapesShareEdge_symm {s1 s2 : Shape} (h : shapesShareEdge s1 s2) :
    shapesShareEdge s2 s1 := by
  obtain ⟨pa, hpa, pb, hpb, h⟩ := h
  refine ⟨pb, hpb, pa, hpa, ?_⟩
  rcases h with ⟨h1, h2⟩ | ⟨h1, h2⟩
  · left
    exact ⟨by rw [hypot_comm_sub]; exact h1, by rw [hypot_comm_sub]; exact h2⟩
  · right
    exact ⟨by rw [hypot_comm_sub]; exact h2, by rw [hypot_comm_sub]; exact h1⟩

theorem share_AB : shapesShareEdge originSquare sqB := by
  refine ⟨(⟨25, -25⟩, ⟨25, 25⟩), ?_, (⟨25, 25⟩, ⟨25, -25⟩), ?_, Or.inr ⟨?_, ?_⟩⟩
  · rw [show shapeVerts originSquare =
        [⟨-25, -25⟩, ⟨25, -25⟩, ⟨25, 25⟩, ⟨-25, 25⟩] from rfl, cyclicPairs_four]
    simp
  · rw [show shapeVerts sqB = [⟨25, -25⟩, ⟨75, -25⟩, ⟨75, 25⟩, ⟨25, 25⟩] from rfl,
      cyclicPairs_four]
    simp
  · simp only [point_x_mk, point_y_mk, hypot_lt_toltwo]
    norm_num
  · simp only [point_x_mk, point_y_mk, hypot_lt_toltwo]
    norm_num

theorem share_BC : shapesShareEdge sqB sqC := by
  refine ⟨(⟨75, 25⟩, ⟨25, 25⟩), ?_, (⟨25, 25⟩, ⟨75, 25⟩), ?_, Or.inr ⟨?_, ?_⟩⟩
  · rw [show shapeVerts sqB = [⟨25, -25⟩, ⟨75, -25⟩, ⟨75, 25⟩, ⟨25, 25⟩] from rfl,
      cyclicPairs_four]
    simp
  · rw [show shapeVerts sqC = [⟨25, 25⟩, ⟨75, 25⟩, ⟨75, 75⟩, ⟨25, 75⟩] from rfl,
      cyclicPairs_four]
    simp
  · simp only [point_x_mk, point_y_mk, hypot_lt_toltwo]
    norm_num
  · simp only [point_x_mk, point_y_mk, hypot_lt_toltwo]
    norm_num

theorem not_share_AC : ¬ shapesShareEdge originSquare sqC := by
  rintro ⟨pa, hpa, pb, hpb, h⟩
  rw [show shapeVerts originSquare =
      [⟨-25, -25⟩, ⟨25, -25⟩, ⟨25, 25⟩, ⟨-25, 25⟩] from rfl, cyclicPairs_four] at hpa
  rw [show shapeVerts sqC = [⟨25, 25⟩, ⟨75, 25⟩, ⟨75, 75⟩, ⟨25, 75⟩] from rfl,
    cyclicPairs_four] at hpb
  simp only [List.mem_cons, List.not_mem_nil, or_false] at hpa hpb
  rcases hpa with rfl | rfl | rfl | rfl <;> rcases hpb with rfl | rfl | rfl | rfl <;>
    · simp only [point_x_mk, point_y_mk, hypot_lt_toltwo] at h
      norm_num at h

theorem not_share_AD : ¬ shapesShareEdge originSquare sqD := by
  rintro ⟨pa, hpa, pb, hpb, h⟩
  rw [show shapeVerts originSquare =
      [⟨-25, -25⟩, ⟨25, -25⟩, ⟨25, 25⟩, ⟨-25, 25⟩] from rfl, cyclicPairs_four] at hpa
  rw [show shapeVerts sqD = [⟨175, 175⟩, ⟨225, 175⟩, ⟨225, 225⟩, ⟨175, 225⟩] from rfl,
    cyclicPairs_four] at hpb
  simp only [List.mem_cons, List.not_mem_nil, or_false] at hpa hpb
  rcases hpa with rfl | rfl | rfl | rfl <;> rcases hpb with rfl | rfl | rfl | rfl <;>
    · simp only [point_x_mk, point_y_mk, hypot_lt_toltwo] at h
      norm_num at h

theorem not_share_BD : ¬ shapesShareEdge sqB sqD := by
  rintro ⟨pa, hpa, pb, hpb, h⟩
  rw [show shapeVerts sqB = [⟨25, -25⟩, ⟨75, -25⟩, ⟨75, 25⟩, ⟨25, 25⟩] from rfl,
    cyclicPairs_four] at hpa
  rw [show shapeVerts sqD = [⟨175, 175⟩, ⟨225, 175⟩, ⟨225, 225⟩, ⟨175, 225⟩] from rfl,
    cyclicPairs_four] at hpb
  simp only [List.mem_cons, List.not_mem_nil, or_false] at hpa hpb
  rcases hpa with rfl | rfl | rfl | rfl <;> rcases hpb with rfl | rfl | rfl | rfl <;>
    · simp only [point_x_mk, point_y_mk, hypot_lt_toltwo] at h
      norm_num at h

theorem not_share_CD : ¬ shapesShareEdge sqC sqD := by
  rintro ⟨pa, hpa, pb, hpb, h⟩
  rw [show shapeVerts sqC = [⟨25, 25⟩, ⟨75, 25⟩, ⟨75, 75⟩, ⟨25, 75⟩] from rfl,
    cyclicPairs_four] at hpa
  rw [show shapeVerts sqD = [⟨175, 175⟩, ⟨225, 175⟩, ⟨225, 225⟩, ⟨175, 225⟩] from rfl,
    cyclicPairs_four] at hpb
  simp only [List.mem_cons, List.not_mem_nil, or_false] at hpa hpb
  rcases hpa with rfl | rfl | rfl | rfl <;> rcases hpb with rfl | rfl | rfl | rfl <;>
    · simp only [point_x_mk, point_y_mk, hypot_lt_toltwo] at h
      norm_num at h

theorem not_share_CA : ¬ shapesShareEdge sqC originSquare :=
  fun h => not_share_AC (shapesShareEdge_symm h)

theorem floodScan_nil (cur : Shape) (group : List ℕ) (queue : List Shape) :
    floodScan cur [] group queue = (group, queue) := rfl

theorem floodScan_cons_skip {cur a : Shape} {rest : List Shape} {group : List ℕ}
    {queue : List Shape} (h : a.id ∈ group) :
    floodScan cur (a :: rest) group queue = floodScan cur rest group queue := by
  simp only [floodScan, List.foldl]
  rw [if_pos h]

theorem floodScan_cons_add {cur a : Shape} {rest : List Shape} {group : List ℕ}
    {queue : List Shape} (h1 : a.id ∉ group) (h2 : shapesShareEdge cur a) :
    floodScan cur (a :: rest) group queue =
      floodScan cur rest (group ++ [a.id]) (queue ++ [a]) := by
  simp only [floodScan, List.foldl]
  rw [if_neg h1, if_pos h2]

theorem floodScan_cons_no {cur a : Shape} {rest : List Shape} {group : List ℕ}
    {queue : List Shape} (h1 : a.id ∉ group) (h2 : ¬ shapesShareEdge cur a) :
    floodScan cur (a :: rest) group queue = floodScan cur rest group queue := by
  simp only [floodScan, List.foldl]
  rw [if_neg h1, if_neg h2]

theorem floodLoop_cons (shapes : List Shape) (fuel : ℕ) (group : List ℕ) (cur : Shape)
    (queue : List Shape) :
    floodLoop shapes (fuel + 1) group (cur :: queue) =
      floodLoop shapes fuel (floodScan cur shapes group queue).1
        (floodScan cur shapes group queue).2 := rfl

theorem floodLoop_nil (shapes : List Shape) (fuel : ℕ) (group : List ℕ) :
    floodLoop shapes (fuel + 1) group [] = group := rfl

theorem findGroup_A : findConnectedGroup lShapes originSquare = [0, 1, 2] := by
  show floodLoop lShapes (lShapes.length + 1) [originSquare.id] [originSquare] = [0, 1, 2]
  rw [show lShapes.length + 1 = 4 + 1 from rfl, show originSquare.id = 0 from rfl]
  rw [floodLoop_cons]
  rw [show (floodScan originSquare lShapes [0] []) = ([0, 1], [sqB]) from ?_]
  · rw [show (4 : ℕ) = 3 + 1 from rfl, floodLoop_cons]
    rw [show (floodScan sqB lShapes ([0, 1] : List ℕ) ([] : List Shape)) =
        ([0, 1, 2], [sqC]) from ?_]
    · rw [show (3 : ℕ) = 2 + 1 from rfl, floodLoop_cons]
      rw [show (floodScan sqC lShapes ([0, 1, 2] : List ℕ) ([] : List Shape)) =
          ([0, 1, 2], []) from ?_]
      · rw [show (2 : ℕ) = 1 + 1 from rfl, floodLoop_nil]
      · show floodScan sqC [originSquare, sqB, sqC, sqD] [0, 1, 2] [] = ([0, 1, 2], [])
        rw [floodScan_cons_skip (by simp [originSquare, sqB, sqC, sqD]),
          floodScan_cons_skip (by simp [originSquare, sqB, sqC, sqD]),
          floodScan_cons_skip (by simp [originSquare, sqB, sqC, sqD]),
          floodScan_cons_no (by simp [originSquare, sqB, sqC, sqD]) not_share_CD, floodScan_nil]
    · show floodScan sqB [originSquare, sqB, sqC, sqD] [0, 1] [] = ([0, 1, 2], [sqC])
      rw [floodScan_cons_skip (by simp [originSquare, sqB, sqC, sqD]),
        floodScan_cons_skip (by simp [originSquare, sqB, sqC, sqD]),
        floodScan_cons_add (by simp [originSquare, sqB, sqC, sqD]) share_BC,
        floodScan_cons_no (by simp [originSquare, sqB, sqC, sqD]) not_share_BD, floodScan_nil]
      simp [sqC]
  · show floodScan originSquare [originSquare, sqB, sqC, sqD] [0] [] = ([0, 1], [sqB])
    rw [floodScan_cons_skip (by simp [originSquare, sqB, sqC, sqD]),
      floodScan_cons_add (by simp [originSquare, sqB, sqC, sqD]) share_AB,
      floodScan_cons_no (by simp [originSquare, sqB, sqC, sqD]) not_share_AC,
      floodScan_cons_no (by simp [originSquare, sqB, sqC, sqD]) not_share_AD, floodScan_nil]
    simp [sqB]

theorem share_BA : shapesShareEdge sqB originSquare := shapesShareEdge_symm share_AB

theorem share_CB : shapesShareEdge sqC sqB := shapesShareEdge_symm share_BC

theorem findGroup_B : findConnectedGroup lShapes sqB = [1, 0, 2] := by
  have s1 : floodScan sqB lShapes [1] [] = ([1, 0, 2], [originSquare, sqC]) := by
    show floodScan sqB [originSquare, sqB, sqC, sqD] [1] [] = _
    rw [floodScan_cons_add (by simp [originSquare, sqB, sqC, sqD]) share_BA,
      floodScan_cons_skip (by simp [originSquare, sqB, sqC, sqD]),
      floodScan_cons_add (by simp [originSquare, sqB, sqC, sqD]) share_BC,
      floodScan_cons_no (by simp [originSquare, sqB, sqC, sqD]) not_share_BD, floodScan_nil]
    simp [originSquare, sqC]
  have s2 : floodScan originSquare lShapes [1, 0, 2] [sqC] = ([1, 0, 2], [sqC]) := by
    show floodScan originSquare [originSquare, sqB, sqC, sqD] [1, 0, 2] [sqC] = _
    rw [floodScan_cons_skip (by simp [originSquare, sqB, sqC, sqD]),
      floodScan_cons_skip (by simp [originSquare, sqB, sqC, sqD]),
      floodScan_cons_skip (by simp [originSquare, sqB, sqC, sqD]),
      floodScan_cons_no (by simp [originSquare, sqB, sqC, sqD]) not_share_AD, floodScan_nil]
  have s3 : floodScan sqC lShapes [1, 0, 2] [] = ([1, 0, 2], []) := by
    show floodScan sqC [originSquare, sqB, sqC, sqD] [1, 0, 2] [] = _
    rw [floodScan_cons_skip (by simp [originSquare, sqB, sqC, sqD]),
      floodScan_cons_skip (by simp [originSquare, sqB, sqC, sqD]),
      floodScan_cons_skip (by simp [originSquare, sqB, sqC, sqD]),
      floodScan_cons_no (by simp [originSquare, sqB, sqC, sqD]) not_share_CD, floodScan_nil]
  show floodLoop lShapes (lShapes.length + 1) [sqB.id] [sqB] = [1, 0, 2]
  rw [show lShapes.length + 1 = 4 + 1 from rfl, show sqB.id = 1 from rfl,
    floodLoop_cons, s1, show (4 : ℕ) = 3 + 1 from rfl, floodLoop_cons, s2,
    show (3 : ℕ) = 2 + 1 from rfl, floodLoop_cons, s3,
    show (2 : ℕ) = 1 + 1 from rfl, floodLoop_nil]

theorem findGroup_C : findConnectedGroup lShapes sqC = [2, 1, 0] := by
  have s1 : floodScan sqC lShapes [2] [] = ([2, 1], [sqB]) := by
    show floodScan sqC [originSquare, sqB, sqC, sqD] [2] [] = _
    rw [floodScan_cons_no (by simp [originSquare, sqB, sqC, sqD]) not_share_CA,
      floodScan_cons_add (by simp [originSquare, sqB, sqC, sqD]) share_CB,
      floodScan_cons_skip (by simp [originSquare, sqB, sqC, sqD]),
      floodScan_cons_no (by simp [originSquare, sqB, sqC, sqD]) not_share_CD, floodScan_nil]
    simp [sqB]
  have s2 : floodScan sqB lShapes [2, 1] [] = ([2, 1, 0], [originSquare]) := by
    show floodScan sqB [originSquare, sqB, sqC, sqD] [2, 1] [] = _
    rw [floodScan_cons_add (by simp [originSquare, sqB, sqC, sqD]) share_BA,
      floodScan_cons_skip (by simp [originSquare, sqB, sqC, sqD]),
      floodScan_cons_skip (by simp [originSquare, sqB, sqC, sqD]),
      floodScan_cons_no (by simp [originSquare, sqB, sqC, sqD]) not_share_BD, floodScan_nil]
    simp [originSquare]
  have s3 : floodScan originSquare lShapes [2, 1, 0] [] = ([2, 1, 0], []) := by
    show floodScan originSquare [originSquare, sqB, sqC, sqD] [2, 1, 0] [] = _
    rw [floodScan_cons_skip (by simp [originSquare, sqB, sqC, sqD]),
      floodScan_cons_skip (by simp [originSquare, sqB, sqC, sqD]),
      floodScan_cons_skip (by simp [originSquare, sqB, sqC, sqD]),
      floodScan_cons_no (by simp [originSquare, sqB, sqC, sqD]) not_share_AD, floodScan_nil]
  show floodLoop lShapes (lShapes.length + 1) [sqC.id] [sqC] = [2, 1, 0]
  rw [show lShapes.length + 1 = 4 + 1 from rfl, show sqC.id = 2 from rfl,
    floodLoop_cons, s1, show (4 : ℕ) = 3 + 1 from rfl, floodLoop_cons, s2,
    show (3 : ℕ) = 2 + 1 from rfl, floodLoop_cons, s3,
    show (2 : ℕ) = 1 + 1 from rfl, floodLoop_nil]

/-- **C7**.  The connectivity relation `shapesShareEdge` is exactly the
spec's "some edge of one matches both endpoints of some edge of the
other, each within `2×EDGE_TOLERANCE`, in either order"; and on the
L of squares `originSquare`–`sqB`–`sqC` (A–B and B–C edge-adjacent,
A–C not) plus the far-away `sqD`, the flood fill seeded at any of the
three L members returns exactly the three ids `{0, 1, 2}`, excluding
`sqD`'s id 3. -/
theorem C7_connected_groups :
    (∀ s1 s2 : Shape, shapesShareEdge s1 s2 ↔ specConnected s1 s2) ∧
    (∀ n : ℕ, n ∈ findConnectedGroup lShapes originSquare ↔ (n = 0 ∨ n = 1 ∨ n = 2)) ∧
    (∀ n : ℕ, n ∈ findConnectedGroup lShapes sqB ↔ (n = 0 ∨ n = 1 ∨ n = 2)) ∧
    (∀ n : ℕ, n ∈ findConnectedGroup lShapes sqC ↔ (n = 0 ∨ n = 1 ∨ n = 2)) ∧
    sqD.id ∉ findConnectedGroup lShapes originSquare := by
  refine ⟨?_, ?_, ?_, ?_, ?_⟩
  · intro s1 s2
    constructor
    · rintro ⟨pa, hpa, pb, hpb, h⟩
      refine ⟨pa, hpa, pb, hpb, ?_⟩
      rwa [show (2 : ℝ) * EDGE_TOLERANCE = EDGE_TOLERANCE * 2 by ring]
    · rintro ⟨pa, hpa, pb, hpb, h⟩
      refine ⟨pa, hpa, pb, hpb, ?_⟩
      rwa [show EDGE_TOLERANCE * 2 = (2 : ℝ) * EDGE_TOLERANCE by ring]
  · intro n
    rw [findGroup_A]
    simp [or_comm, or_left_comm]
  · intro n
    rw [findGroup_B]
    simp
    tauto
  · intro n
    rw [findGroup_C]
    simp
    tauto
  · rw [findGroup_A]
    simp [sqD]

theorem flat_pairs_length (vs : List Point) :
    (vs.flatMap fun pt => ([round pt.x, round pt.y] : List ℤ)).length = 2 * vs.length := by
  induction vs with
  | nil => rfl
  | cons h t ih => simp [ih]; ring

theorem parsePairs_flat (vs : List Point) :
    parsePairs (vs.flatMap fun pt => ([round pt.x, round pt.y] : List ℤ)) =
      vs.map fun p => (⟨((round p.x : ℤ) : ℝ), ((round p.y : ℤ) : ℝ)⟩ : Point) := by
  induction vs with
  | nil => rfl
  | cons h t ih =>
    rw [show ((h :: t).flatMap fun pt => ([round pt.x, round pt.y] : List ℤ)) =
        round h.x :: round h.y ::
          (t.flatMap fun pt => ([round pt.x, round pt.y] : List ℤ)) from rfl,
      parsePairs, ih, List.map_cons]

theorem typeFromCode_typeCode (t : ShapeType) : typeFromCode (typeCode t) = t := by
  cases t <;> simp [typeFromCode, typeCode]

theorem buildingFromCodeD_code (d b : Building) :
    buildingFromCodeD d (buildingCode b) = b := by
  cases b <;> simp [buildingFromCodeD, buildingCode]

theorem decodeUltraShape_fields (defaultB : Building) (baseId i : ℕ) (s : Shape) :
    (decodeUltraShape defaultB baseId i (compressShape s)).type = s.type ∧
    (decodeUltraShape defaultB baseId i (compressShape s)).building = s.building ∧
    (decodeUltraShape defaultB baseId i (compressShape s))._verts =
      some ((s._verts.getD []).map fun p =>
        (⟨((round p.x : ℤ) : ℝ), ((round p.y : ℤ) : ℝ)⟩ : Point)) := by
  have hcond : 2 ≤ (compressShape s).length ∧
      0 ≤ (compressShape s).getD 1 0 ∧ (compressShape s).getD 1 0 ≤ 3 ∧
      ((compressShape s).length - 2) % 2 = 0 := by
    refine ⟨?_, ?_, ?_, ?_⟩
    · simp [compressShape]
    · rw [show (compressShape s).getD 1 0 = buildingCode s.building from rfl]
      cases s.building <;> simp [buildingCode]
    · rw [show (compressShape s).getD 1 0 = buildingCode s.building from rfl]
      cases s.building <;> simp [buildingCode]
    · simp only [compressShape, List.length_cons, flat_pairs_length]
      omega
  simp only [decodeUltraShape, if_pos hcond]
  refine ⟨?_, ?_, ?_⟩
  · show typeFromCode (compressShape s).headI = s.type
    rw [show (compressShape s).headI = typeCode s.type from rfl, typeFromCode_typeCode]
  · show buildingFromCodeD defaultB ((compressShape s).getD 1 0) = s.building
    rw [show (compressShape s).getD 1 0 = buildingCode s.building from rfl,
      buildingFromCodeD_code]
  · show some (parsePairs ((compressShape s).drop 2)) = _
    rw [show (compressShape s).drop 2 =
        (s._verts.getD []).flatMap fun pt => ([round pt.x, round pt.y] : List ℤ) from rfl,
      parsePairs_flat]

/-- **C6**.  Decoding the encoded ultra-compact form of any shape list
reproduces the same number of shapes, and for each shape the same kind,
the same building style, the same vertex count, and vertex coordinates
within ±1 of the originals (the `Math.round` integer tolerance).  This
holds for every list, hence in particular for designs of up to 200
shapes per floor across any number of floors (the multi-floor format
applies this same per-floor encoding). -/
theorem C6_codec_roundtrip (defaultB : Building) (baseId : ℕ) (shapes : List Shape) :
    (expandCompressedShapes defaultB baseId (compressShapes shapes)).length =
        shapes.length ∧
      ∀ (i : ℕ) (s : Shape), shapes[i]? = some s →
        (expandCompressedShapes defaultB baseId (compressShapes shapes))[i]? =
            some (decodeUltraShape defaultB baseId i (compressShape s)) ∧
          (decodeUltraShape defaultB baseId i (compressShape s)).type = s.type ∧
          (decodeUltraShape defaultB baseId i (compressShape s)).building = s.building ∧
          ((decodeUltraShape defaultB baseId i (compressShape s))._verts.getD []).length =
            (s._verts.getD []).length ∧
          ∀ (j : ℕ) (p q : Point),
            (s._verts.getD [])[j]? = some p →
            ((decodeUltraShape defaultB baseId i (compressShape s))._verts.getD [])[j]? =
              some q →
            |q.x - p.x| ≤ 1 ∧ |q.y - p.y| ≤ 1 := by
  by_cases hnil : shapes = []
  · subst hnil
    exact ⟨rfl, by intro i s h; simp at h⟩
  have hlen0 : ¬ (compressShapes shapes).length = 0 := by
    simp [compressShapes, hnil]
  constructor
  · rw [expandCompressedShapes, if_neg hlen0]
    simp [compressShapes]
  · intro i s hs
    rw [expandCompressedShapes, if_neg hlen0]
    refine ⟨?_, ?_⟩
    · rw [List.getElem?_map, List.getElem?_enum]
      simp [compressShapes, List.getElem?_map, hs]
    · obtain ⟨ht, hb, hv⟩ := decodeUltraShape_fields defaultB baseId i s
      refine ⟨ht, hb, ?_, ?_⟩
      · rw [hv]
        simp
      · intro j p q hp hq
        rw [hv] at hq
        simp only [Option.getD_some, List.getElem?_map, hp, Option.map_some',
          Option.some.injEq] at hq
        subst hq
        constructor
        · simp only [point_x_mk]
          rw [abs_sub_comm]
          calc |p.x - ((round p.x : ℤ) : ℝ)| ≤ 1 / 2 := abs_sub_round p.x
            _ ≤ 1 := by norm_num
        · simp only [point_y_mk]
          rw [abs_sub_comm]
          calc |p.y - ((round p.y : ℤ) : ℝ)| ≤ 1 / 2 := abs_sub_round p.y
            _ ≤ 1 := by norm_num


/-- **C6** (witness): the codec round-trip at the one-shape design
`[codecSample]`, applied at shape index 0 and vertex index 0 — the
vertex `(1/4, -1/2)` decodes to `(0, 0)`, within ±1. -/
theorem C6_witness :
    (([codecSample] : List Shape)[0]? = some codecSample) ∧
    ((codecSample._verts.getD [])[0]? = some (⟨1 / 4, -(1 / 2)⟩ : Point)) ∧
    (((decodeUltraShape .atreides 7 0 (compressShape codecSample))._verts.getD [])[0]? =
      some (⟨0, 0⟩ : Point)) ∧
    (|(⟨0, 0⟩ : Point).x - (⟨1 / 4, -(1 / 2)⟩ : Point).x| ≤ 1 ∧
      |(⟨0, 0⟩ : Point).y - (⟨1 / 4, -(1 / 2)⟩ : Point).y| ≤ 1) := by
  have h1 : (([codecSample] : List Shape))[0]? = some codecSample := rfl
  have h2 : (codecSample._verts.getD [])[0]? = some (⟨1 / 4, -(1 / 2)⟩ : Point) := rfl
  have h3 : ((decodeUltraShape .atreides 7 0 (compressShape codecSample))._verts.getD
      [])[0]? = some (⟨0, 0⟩ : Point) := by
    rw [(decodeUltraShape_fields .atreides 7 0 codecSample).2.2]
    have hr1 : round ((1 : ℝ) / 4) = 0 := by
      rw [round_eq]
      norm_num
    have hr2 : round (-(1 / 2 : ℝ)) = 0 := by
      rw [round_eq]
      norm_num
    simp [codecSample, hr1, hr2]
    norm_num
  exact ⟨h1, h2, h3,
    ((C6_codec_roundtrip .atreides 7 [codecSample]).2 0 codecSample h1).2.2.2.2 0
      ⟨1 / 4, -(1 / 2)⟩ ⟨0, 0⟩ h2 h3⟩

theorem commitGroupTransform_eq (shapes : List Shape) (groupIds : List ℕ)
    (mode : GroupMode) (gridEnabled : Bool) :
    commitGroupTransform shapes groupIds mode gridEnabled =
      if checkGroupOverlap shapes (resolveGroupTransform shapes groupIds mode gridEnabled)
          groupIds then shapes
      else
        shapes.map
          (applyGroupCommit groupIds mode
            (resolveGroupTransform shapes groupIds mode gridEnabled)) := rfl

theorem resolveGroupTransform_dragging_nogrid (shapes : List Shape) (groupIds : List ℕ)
    (off : Point) :
    resolveGroupTransform shapes groupIds (.dragging off) false =
      if checkGroupOverlap shapes
          (snapGroupToEdges shapes (groupTransformedShapes shapes groupIds (.dragging off))
            groupIds) groupIds
      then groupTransformedShapes shapes groupIds (.dragging off)
      else
        snapGroupToEdges shapes (groupTransformedShapes shapes groupIds (.dragging off))
          groupIds := by
  simp [resolveGroupTransform, GroupMode.isDragging]

/-- **C10**: a committed group transform preserves the list length; at every
index the id, kind and building style are unchanged; shapes outside the
group are completely untouched; and a transform rejected as overlapping
leaves the whole list unchanged. -/
theorem C10_group_commit_frame (shapes : List Shape) (groupIds : List ℕ)
    (mode : GroupMode) (gridEnabled : Bool) :
    (commitGroupTransform shapes groupIds mode gridEnabled).length = shapes.length ∧
    (∀ (i : ℕ) (s r : Shape), shapes[i]? = some s →
      (commitGroupTransform shapes groupIds mode gridEnabled)[i]? = some r →
      r.id = s.id ∧ r.type = s.type ∧ r.building = s.building ∧
        (s.id ∉ groupIds → r = s)) ∧
    (checkGroupOverlap shapes (resolveGroupTransform shapes groupIds mode gridEnabled)
        groupIds →
      commitGroupTransform shapes groupIds mode gridEnabled = shapes) := by
  rw [commitGroupTransform_eq]
  by_cases hov : checkGroupOverlap shapes
      (resolveGroupTransform shapes groupIds mode gridEnabled) groupIds
  · rw [if_pos hov]
    refine ⟨rfl, ?_, fun _ => rfl⟩
    intro i s r hs hr
    rw [hs] at hr
    injection hr with h
    subst h
    exact ⟨rfl, rfl, rfl, fun _ => rfl⟩
  · rw [if_neg hov]
    refine ⟨List.length_map _ _, ?_, fun h => absurd h hov⟩
    intro i s r hs hr
    rw [List.getElem?_map, hs, Option.map_some'] at hr
    injection hr with h
    subst h
    unfold applyGroupCommit
    by_cases hmem : s.id ∉ groupIds
    · rw [if_pos hmem]
      exact ⟨rfl, rfl, rfl, fun _ => rfl⟩
    · rw [if_neg hmem]
      rcases hfind : (resolveGroupTransform shapes groupIds mode gridEnabled).find?
          (fun t => t.shape.id == s.id) with _ | t
      · rw [hfind]
        exact ⟨rfl, rfl, rfl, fun hm => absurd hm hmem⟩
      · rw [hfind]
        exact ⟨rfl, rfl, rfl, fun hm => absurd hm hmem⟩

theorem resolveGroupTransform_rotating (shapes : List Shape) (groupIds : List ℕ)
    (c : Point) (a : ℝ) (g : Bool) :
    resolveGroupTransform shapes groupIds (.rotating c a) g =
      groupTransformedShapes shapes groupIds (.rotating c a) := by
  simp [resolveGroupTransform, GroupMode.isDragging]

theorem groupTransformed_dup_eval :
    groupTransformedShapes dupShapes [1] (.rotating ⟨0, 0⟩ 0) =
      [⟨snapDup, [⟨75, 75⟩, ⟨125, 75⟩, ⟨125, 125⟩, ⟨75, 125⟩]⟩] := by
  simp [groupTransformedShapes, dupShapes, snapE2, snapDup, shapeVerts,
    rotateVertsAroundPoint]

theorem getCollisionVertices_snapE2 :
    getCollisionVertices snapE2 = [⟨75, 75⟩, ⟨125, 75⟩, ⟨125, 125⟩, ⟨75, 125⟩] := by
  simp [getCollisionVertices, snapE2, shapeVerts]

theorem nonGroup_snapE2 :
    (dupShapes.filter fun s => s.id ∉ ([1] : List ℕ)) = [snapE2] := rfl

theorem groupOverlap_dup :
    checkGroupOverlap dupShapes
      [⟨snapDup, [⟨75, 75⟩, ⟨125, 75⟩, ⟨125, 125⟩, ⟨75, 125⟩]⟩] [1] := by
  refine ⟨⟨snapDup, [⟨75, 75⟩, ⟨125, 75⟩, ⟨125, 125⟩, ⟨75, 125⟩]⟩,
    List.mem_singleton.mpr rfl, snapE2, ?_, Or.inr (Or.inr (Or.inr ⟨?_, ?_⟩))⟩
  · rw [nonGroup_snapE2]
    exact List.mem_singleton.mpr rfl
  · rw [getCollisionVertices_snapE2]
    simp only [centroidX, centroidY, List.foldl, List.length_cons, List.length_nil]
    norm_num
  · refine ⟨⟨75, 75⟩, List.mem_cons_self _ _, ⟨75, 75⟩, ?_, ?_⟩
    · show (⟨75, 75⟩ : Point) ∈ snapE2._verts.getD []
      exact List.mem_cons_self _ _
    · simp only [point_x_mk, point_y_mk, hypot_lt_toltwo]
      norm_num

/-- **C10** (witness): rotating the duplicate square by 0° onto `snapE2`
is rejected as overlapping, so the commit leaves `dupShapes` unchanged,
and the frame conditions hold at index 0. -/
theorem C10_witness :
    commitGroupTransform dupShapes [1] (.rotating ⟨0, 0⟩ 0) false = dupShapes ∧
    (snapE2.id = snapE2.id ∧ snapE2.type = snapE2.type ∧
      snapE2.building = snapE2.building ∧
      (snapE2.id ∉ ([1] : List ℕ) → snapE2 = snapE2)) := by
  have hov : checkGroupOverlap dupShapes
      (resolveGroupTransform dupShapes [1] (.rotating ⟨0, 0⟩ 0) false) [1] := by
    rw [resolveGroupTransform_rotating, groupTransformed_dup_eval]
    exact groupOverlap_dup
  have hc := (C10_group_commit_frame dupShapes [1] (.rotating ⟨0, 0⟩ 0) false).2.2 hov
  refine ⟨hc, ?_⟩
  have h0 : dupShapes[0]? = some snapE2 := rfl
  have h0c : (commitGroupTransform dupShapes [1] (.rotating ⟨0, 0⟩ 0) false)[0]? =
      some snapE2 := by rw [hc]; exact h0
  exact (C10_group_commit_frame dupShapes [1] (.rotating ⟨0, 0⟩ 0) false).2.1
    0 snapE2 snapE2 h0 h0c

theorem snapFoldStep_cons_lt (acc : Option Point × ℝ) (pr : Point × Point)
    (rest : List (Point × Point))
    (h : Real.sqrt ((pr.1.x - pr.2.x) ^ 2 + (pr.1.y - pr.2.y) ^ 2) < acc.2) :
    (pr :: rest).foldl snapFoldStep acc =
      rest.foldl snapFoldStep
        (some (Point.mk (pr.2.x - pr.1.x) (pr.2.y - pr.1.y)),
          Real.sqrt ((pr.1.x - pr.2.x) ^ 2 + (pr.1.y - pr.2.y) ^ 2)) := by
  rw [List.foldl_cons]
  simp only [snapFoldStep]
  rw [if_pos h]

theorem snapFoldStep_cons_ge (acc : Option Point × ℝ) (pr : Point × Point)
    (rest : List (Point × Point))
    (h : ¬ Real.sqrt ((pr.1.x - pr.2.x) ^ 2 + (pr.1.y - pr.2.y) ^ 2) < acc.2) :
    (pr :: rest).foldl snapFoldStep acc = rest.foldl snapFoldStep acc := by
  rw [List.foldl_cons]
  simp only [snapFoldStep]
  rw [if_neg h]

theorem groupTransformed_snap_eval :
    groupTransformedShapes snapShapes [1] (.dragging ⟨0, 0⟩) =
      [⟨snapG, [⟨75, 55⟩, ⟨125, 55⟩, ⟨125, 105⟩, ⟨75, 105⟩]⟩] := by
  simp [groupTransformedShapes, snapShapes, snapE2, snapG, shapeVerts, offsetVertices]

theorem external_snap_eval :
    ((snapShapes.filter fun s => s.id ∉ ([1] : List ℕ)).flatMap shapeVerts) =
      [⟨75, 75⟩, ⟨125, 75⟩, ⟨125, 125⟩, ⟨75, 125⟩] := rfl

theorem snapFold_sceneEval :
    ([((⟨75, 55⟩ : Point), (⟨75, 75⟩ : Point)), ((⟨75, 55⟩ : Point), (⟨125, 75⟩ : Point)), ((⟨75, 55⟩ : Point), (⟨125, 125⟩ : Point)), ((⟨75, 55⟩ : Point), (⟨75, 125⟩ : Point)), ((⟨125, 55⟩ : Point), (⟨75, 75⟩ : Point)), ((⟨125, 55⟩ : Point), (⟨125, 75⟩ : Point)), ((⟨125, 55⟩ : Point), (⟨125, 125⟩ : Point)), ((⟨125, 55⟩ : Point), (⟨75, 125⟩ : Point)), ((⟨125, 105⟩ : Point), (⟨75, 75⟩ : Point)), ((⟨125, 105⟩ : Point), (⟨125, 75⟩ : Point)), ((⟨125, 105⟩ : Point), (⟨125, 125⟩ : Point)), ((⟨125, 105⟩ : Point), (⟨75, 125⟩ : Point)), ((⟨75, 105⟩ : Point), (⟨75, 75⟩ : Point)), ((⟨75, 105⟩ : Point), (⟨125, 75⟩ : Point)), ((⟨75, 105⟩ : Point), (⟨125, 125⟩ : Point)), ((⟨75, 105⟩ : Point), (⟨75, 125⟩ : Point))] : List (Point × Point)).foldl snapFoldStep
        ((none : Option Point), SNAP_THRESHOLD) = (some ⟨0, 20⟩, Real.sqrt 400) := by
  rw [snapFoldStep_cons_lt _ _ _ (by
    rw [show SNAP_THRESHOLD = (100 : ℝ) from rfl, Real.sqrt_lt' (by norm_num)]
    norm_num)]
  rw [snapFoldStep_cons_ge _ _ _ (by push_neg; exact Real.sqrt_le_sqrt (by norm_num)),
    snapFoldStep_cons_ge _ _ _ (by push_neg; exact Real.sqrt_le_sqrt (by norm_num)),
    snapFoldStep_cons_ge _ _ _ (by push_neg; exact Real.sqrt_le_sqrt (by norm_num)),
    snapFoldStep_cons_ge _ _ _ (by push_neg; exact Real.sqrt_le_sqrt (by norm_num)),
    snapFoldStep_cons_ge _ _ _ (by push_neg; exact Real.sqrt_le_sqrt (by norm_num)),
    snapFoldStep_cons_ge _ _ _ (by push_neg; exact Real.sqrt_le_sqrt (by norm_num)),
    snapFoldStep_cons_ge _ _ _ (by push_neg; exact Real.sqrt_le_sqrt (by norm_num)),
    snapFoldStep_cons_ge _ _ _ (by push_neg; exact Real.sqrt_le_sqrt (by norm_num)),
    snapFoldStep_cons_ge _ _ _ (by push_neg; exact Real.sqrt_le_sqrt (by norm_num)),
    snapFoldStep_cons_ge _ _ _ (by push_neg; exact Real.sqrt_le_sqrt (by norm_num)),
    snapFoldStep_cons_ge _ _ _ (by push_neg; exact Real.sqrt_le_sqrt (by norm_num)),
    snapFoldStep_cons_ge _ _ _ (by push_neg; exact Real.sqrt_le_sqrt (by norm_num)),
    snapFoldStep_cons_ge _ _ _ (by push_neg; exact Real.sqrt_le_sqrt (by norm_num)),
    snapFoldStep_cons_ge _ _ _ (by push_neg; exact Real.sqrt_le_sqrt (by norm_num)),
    snapFoldStep_cons_ge _ _ _ (by push_neg; exact Real.sqrt_le_sqrt (by norm_num))]
  simp only [List.foldl_nil]
  norm_num
theorem snapGroupToEdges_scene :
    snapGroupToEdges snapShapes
        [⟨snapG, [⟨75, 55⟩, ⟨125, 55⟩, ⟨125, 105⟩, ⟨75, 105⟩]⟩] [1] =
      [⟨snapG, [⟨75, 75⟩, ⟨125, 75⟩, ⟨125, 125⟩, ⟨75, 125⟩]⟩] := by
  unfold snapGroupToEdges
  simp only []
  rw [external_snap_eval]
  rw [if_neg (by simp), if_neg (by simp)]
  rw [show (([⟨snapG, [⟨75, 55⟩, ⟨125, 55⟩, ⟨125, 105⟩, ⟨75, 105⟩]⟩] :
      List Transformed).flatMap Transformed.newVerts) =
      ([⟨75, 55⟩, ⟨125, 55⟩, ⟨125, 105⟩, ⟨75, 105⟩] : List Point) from rfl]
  rw [show (([⟨75, 55⟩, ⟨125, 55⟩, ⟨125, 105⟩, ⟨75, 105⟩] : List Point).flatMap fun gv =>
      ([⟨75, 75⟩, ⟨125, 75⟩, ⟨125, 125⟩, ⟨75, 125⟩] : List Point).map fun ev => (gv, ev)) =
      ([((⟨75, 55⟩ : Point), (⟨75, 75⟩ : Point)), ((⟨75, 55⟩ : Point), (⟨125, 75⟩ : Point)), ((⟨75, 55⟩ : Point), (⟨125, 125⟩ : Point)), ((⟨75, 55⟩ : Point), (⟨75, 125⟩ : Point)), ((⟨125, 55⟩ : Point), (⟨75, 75⟩ : Point)), ((⟨125, 55⟩ : Point), (⟨125, 75⟩ : Point)), ((⟨125, 55⟩ : Point), (⟨125, 125⟩ : Point)), ((⟨125, 55⟩ : Point), (⟨75, 125⟩ : Point)), ((⟨125, 105⟩ : Point), (⟨75, 75⟩ : Point)), ((⟨125, 105⟩ : Point), (⟨125, 75⟩ : Point)), ((⟨125, 105⟩ : Point), (⟨125, 125⟩ : Point)), ((⟨125, 105⟩ : Point), (⟨75, 125⟩ : Point)), ((⟨75, 105⟩ : Point), (⟨75, 75⟩ : Point)), ((⟨75, 105⟩ : Point), (⟨125, 75⟩ : Point)), ((⟨75, 105⟩ : Point), (⟨125, 125⟩ : Point)), ((⟨75, 105⟩ : Point), (⟨75, 125⟩ : Point))] : List (Point × Point)) from rfl]
  rw [snapFold_sceneEval]
  simp only [List.map_cons, List.map_nil]
  norm_num

theorem nonGroup_snap_snapE2 :
    (snapShapes.filter fun s => s.id ∉ ([1] : List ℕ)) = [snapE2] := rfl

theorem groupOverlap_snapped :
    checkGroupOverlap snapShapes
      [⟨snapG, [⟨75, 75⟩, ⟨125, 75⟩, ⟨125, 125⟩, ⟨75, 125⟩]⟩] [1] := by
  refine ⟨⟨snapG, [⟨75, 75⟩, ⟨125, 75⟩, ⟨125, 125⟩, ⟨75, 125⟩]⟩,
    List.mem_singleton.mpr rfl, snapE2, ?_, Or.inr (Or.inr (Or.inr ⟨?_, ?_⟩))⟩
  · rw [nonGroup_snap_snapE2]
    exact List.mem_singleton.mpr rfl
  · rw [getCollisionVertices_snapE2]
    simp only [centroidX, centroidY, List.foldl, List.length_cons, List.length_nil]
    norm_num
  · refine ⟨⟨75, 75⟩, List.mem_cons_self _ _, ⟨75, 75⟩, ?_, ?_⟩
    · show (⟨75, 75⟩ : Point) ∈ snapE2._verts.getD []
      exact List.mem_cons_self _ _
    · simp only [point_x_mk, point_y_mk, hypot_lt_toltwo]
      norm_num

theorem snapE2_getD :
    snapE2._verts.getD [] = [⟨75, 75⟩, ⟨125, 75⟩, ⟨125, 125⟩, ⟨75, 125⟩] := rfl

theorem no_groupOverlap_base :
    ¬ checkGroupOverlap snapShapes
      [⟨snapG, [⟨75, 55⟩, ⟨125, 55⟩, ⟨125, 105⟩, ⟨75, 105⟩]⟩] [1] := by
  intro h
  simp [checkGroupOverlap, snapShapes, snapE2, snapG, newCollisionVertsOf,
    getCollisionVertices, shapeVerts] at h
  rcases h with (hP | hP | hP | hP) | (hP | hP | hP | hP) | hcross | ⟨hc, hd⟩
  · refine not_strictlyIn_of_ray ?_ hP
    simp only [rayInside, jPairs_four, List.foldl, rayCrossProp, Xor',
      point_x_mk, point_y_mk]
    norm_num
  · refine not_strictlyIn_of_ray ?_ hP
    simp only [rayInside, jPairs_four, List.foldl, rayCrossProp, Xor',
      point_x_mk, point_y_mk]
    norm_num
  · refine @not_strictlyIn_of_near _ _ _ ⟨125, 75⟩ ⟨125, 125⟩ ?_ ?_ hP
    · rw [cyclicPairs_four]; simp
    · simp only [onEdgeNear, point_x_mk, point_y_mk, EDGE_TOLERANCE, hypot_lt_two]
      norm_num
  · refine @not_strictlyIn_of_near _ _ _ ⟨75, 125⟩ ⟨75, 75⟩ ?_ ?_ hP
    · rw [cyclicPairs_four]; simp
    · simp only [onEdgeNear, point_x_mk, point_y_mk, EDGE_TOLERANCE, hypot_lt_two]
      norm_num
  · refine @not_strictlyIn_of_near _ _ _ ⟨75, 105⟩ ⟨75, 55⟩ ?_ ?_ hP
    · rw [cyclicPairs_four]; simp
    · simp only [onEdgeNear, point_x_mk, point_y_mk, EDGE_TOLERANCE, hypot_lt_two]
      norm_num
  · refine @not_strictlyIn_of_near _ _ _ ⟨125, 55⟩ ⟨125, 105⟩ ?_ ?_ hP
    · rw [cyclicPairs_four]; simp
    · simp only [onEdgeNear, point_x_mk, point_y_mk, EDGE_TOLERANCE, hypot_lt_two]
      norm_num
  · refine not_strictlyIn_of_ray ?_ hP
    simp only [rayInside, jPairs_four, List.foldl, rayCrossProp, Xor',
      point_x_mk, point_y_mk]
    norm_num
  · refine not_strictlyIn_of_ray ?_ hP
    simp only [rayInside, jPairs_four, List.foldl, rayCrossProp, Xor',
      point_x_mk, point_y_mk]
    norm_num
  · obtain ⟨pa, hpa, pb, hpb, hseg⟩ := hcross
    rw [cyclicPairs_four] at hpa hpb
    simp only [List.mem_cons, List.not_mem_nil, or_false] at hpa hpb
    rcases hpa with rfl | rfl | rfl | rfl <;> rcases hpb with rfl | rfl | rfl | rfl <;>
      · simp only [segmentsIntersect, cross, point_x_mk, point_y_mk] at hseg
        norm_num at hseg
  · norm_num at hd

/-- **C9**: in a group drag commit (grid snap off), if the vertex snap's
result overlaps a non-group shape the snap is discarded and the pre-snap
transformed vertices are used — committed only if they themselves pass the
overlap check; if the snapped result does not overlap, it is what gets
committed. -/
theorem C9_group_snap_revert (shapes : List Shape) (groupIds : List ℕ) (off : Point) :
    (checkGroupOverlap shapes
        (snapGroupToEdges shapes (groupTransformedShapes shapes groupIds (.dragging off))
          groupIds) groupIds →
      resolveGroupTransform shapes groupIds (.dragging off) false =
          groupTransformedShapes shapes groupIds (.dragging off) ∧
        (¬ checkGroupOverlap shapes (groupTransformedShapes shapes groupIds (.dragging off))
            groupIds →
          commitGroupTransform shapes groupIds (.dragging off) false =
            shapes.map (applyGroupCommit groupIds (.dragging off)
              (groupTransformedShapes shapes groupIds (.dragging off)))) ∧
        (checkGroupOverlap shapes (groupTransformedShapes shapes groupIds (.dragging off))
            groupIds →
          commitGroupTransform shapes groupIds (.dragging off) false = shapes)) ∧
    (¬ checkGroupOverlap shapes
        (snapGroupToEdges shapes (groupTransformedShapes shapes groupIds (.dragging off))
          groupIds) groupIds →
      resolveGroupTransform shapes groupIds (.dragging off) false =
          snapGroupToEdges shapes (groupTransformedShapes shapes groupIds (.dragging off))
            groupIds ∧
        commitGroupTransform shapes groupIds (.dragging off) false =
          shapes.map (applyGroupCommit groupIds (.dragging off)
            (snapGroupToEdges shapes (groupTransformedShapes shapes groupIds (.dragging off))
              groupIds))) := by
  constructor
  · intro hov
    have h1 : resolveGroupTransform shapes groupIds (.dragging off) false =
        groupTransformedShapes shapes groupIds (.dragging off) := by
      rw [resolveGroupTransform_dragging_nogrid, if_pos hov]
    refine ⟨h1, ?_, ?_⟩
    · intro hnb
      rw [commitGroupTransform_eq, h1, if_neg hnb]
    · intro hb
      rw [commitGroupTransform_eq, h1, if_pos hb]
  · intro hnov
    have h1 : resolveGroupTransform shapes groupIds (.dragging off) false =
        snapGroupToEdges shapes (groupTransformedShapes shapes groupIds (.dragging off))
          groupIds := by
      rw [resolveGroupTransform_dragging_nogrid, if_neg hnov]
    exact ⟨h1, by rw [commitGroupTransform_eq, h1, if_neg hnov]⟩

/-- **C9** (witness): dragging the lower square's group by `(0, 0)` to 20
units below `snapE2`, the vertex snap pulls it exactly onto `snapE2`, which
the overlap check rejects, so the pre-snap vertices are resolved and — being
overlap-free themselves — committed. -/
theorem C9_witness :
    checkGroupOverlap snapShapes
      (snapGroupToEdges snapShapes (groupTransformedShapes snapShapes [1] (.dragging ⟨0, 0⟩))
        [1]) [1] ∧
    resolveGroupTransform snapShapes [1] (.dragging ⟨0, 0⟩) false =
      groupTransformedShapes snapShapes [1] (.dragging ⟨0, 0⟩) ∧
    ¬ checkGroupOverlap snapShapes (groupTransformedShapes snapShapes [1] (.dragging ⟨0, 0⟩))
      [1] ∧
    commitGroupTransform snapShapes [1] (.dragging ⟨0, 0⟩) false =
      snapShapes.map (applyGroupCommit [1] (.dragging ⟨0, 0⟩)
        (groupTransformedShapes snapShapes [1] (.dragging ⟨0, 0⟩))) := by
  have hov : checkGroupOverlap snapShapes
      (snapGroupToEdges snapShapes (groupTransformedShapes snapShapes [1] (.dragging ⟨0, 0⟩))
        [1]) [1] := by
    rw [groupTransformed_snap_eval, snapGroupToEdges_scene]
    exact groupOverlap_snapped
  have hnb : ¬ checkGroupOverlap snapShapes
      (groupTransformedShapes snapShapes [1] (.dragging ⟨0, 0⟩)) [1] := by
    rw [groupTransformed_snap_eval]
    exact no_groupOverlap_base
  have hmain := (C9_group_snap_revert snapShapes [1] ⟨0, 0⟩).1 hov
  exact ⟨hov, hmain.1, hnb, hmain.2.1 hnb⟩

/-- **C8**: decoding `failingSharedPayload` fails (the `TypeError` from
`state.ca.map` escapes to the logging `catch`), yet the decode is
partially applied: the shapes list has already been replaced by the
decoded one-element list, while claimed areas and placed items keep
their previous values — for any prior state and any id bases.  This
contradicts the claim that a failing decode leaves the state untouched
and never partial-applies. -/
theorem C8_decode_partial_apply (defaultB : Building) (baseId baseCa basePi : ℕ)
    (st : DecodeState) :
    (decodeSingleFloor defaultB baseId baseCa basePi st failingSharedPayload).2 = true ∧
    (decodeSingleFloor defaultB baseId baseCa basePi st failingSharedPayload).1.shapes =
      [decodeUltraShape defaultB baseId 0 [0, 0, 0, 0, 50, 0, 50, 50, 0, 50]] ∧
    (decodeSingleFloor defaultB baseId baseCa basePi st
        failingSharedPayload).1.shapes.length = 1 ∧
    (decodeSingleFloor defaultB baseId baseCa basePi st
        failingSharedPayload).1.claimedAreas = st.claimedAreas ∧
    (decodeSingleFloor defaultB baseId baseCa basePi st
        failingSharedPayload).1.placedItems = st.placedItems :=
  ⟨rfl, rfl, rfl, rfl, rfl⟩

end FP
